import Mathlib

/-!
# Verification of the chicago-crashes-ml identifier / validation core

Shallow embedding of the identifier-generation and validation subsystem of
the crash-records API (`util/id_generators.py`, `util/validators.py` and the
entity routers in `api/routers/`), together with proofs of the spec claims.

Modelling conventions:
* Python `float` values are modelled as exact rationals (`ℚ`).
* Python `int` is `ℤ` (or `ℕ` where the source guarantees non-negativity).
* Mutable database state is modelled as explicit list-valued stores; each
  router operation is a pure function returning a result together with the
  store after the call (errors leave the store as it was at raise time).
* `hashlib.sha512(...).hexdigest()` is embedded as an executable SHA-512
  over byte lists, with round constants derived (as in FIPS 180-4) from the
  fractional parts of cube/square roots of the first primes.
-/

deriving instance DecidableEq for Except

namespace CrashAPI

/-! ## Decimal and hexadecimal rendering (embeds Python `str`/`format`) -/

/-- Fueled little-endian base-10 digit expansion (empty for zero);
structural recursion on the fuel keeps it reducible inside the kernel. -/
def natDigitsAux : Nat → Nat → List Nat
  | 0, _ => []
  | _, 0 => []
  | fuel + 1, n => (n % 10) :: natDigitsAux fuel (n / 10)

/-- Little-endian base-10 digits of `n` (empty for zero). -/
def natDigits (n : Nat) : List Nat := natDigitsAux n n

/-- Little-endian base-10 digits rendered most-significant first, as chars. -/
def natDecimalChars (n : Nat) : List Char :=
  (natDigits n).reverse.map (fun d => Char.ofNat (48 + d))

/-- Embeds Python `str(n)` for a non-negative integer (`"0"` for zero). -/
def natDecimal (n : Nat) : String :=
  if n = 0 then "0" else String.mk (natDecimalChars n)

/-- Embeds Python `str(i)` for an `int`, with a leading minus sign. -/
def intDecimal (i : Int) : String :=
  (if i < 0 then "-" else "") ++ natDecimal i.natAbs

/-- Zero-pad a decimal rendering to width `w` (Python `f"{n:0wd}"`). -/
def natPad (w n : Nat) : String :=
  let s := natDecimal n
  String.mk (List.replicate (w - s.length) '0') ++ s

/-- Lowercase hexadecimal digit for a value `< 16`. -/
def hexChar (d : Nat) : Char :=
  if d < 10 then Char.ofNat (48 + d) else Char.ofNat (87 + d)

/-- Render a 64-bit word as 16 lowercase hex characters, big-endian. -/
def word64Hex (x : Nat) : List Char :=
  (List.range 16).map (fun i => hexChar ((x >>> (4 * (15 - i))) % 16))

/-- Recognizer for the characters a lowercase hex rendering can use. -/
def isLowerHexDigit (c : Char) : Bool := c.isDigit || ('a' ≤ c && c ≤ 'f')

/-! ## SHA-512 (embeds `hashlib.sha512(...).hexdigest()`)

64-bit words are natural numbers kept below `2 ^ 64` by explicit reduction.
-/

/-- Reduce to a 64-bit word. -/
def w64 (x : Nat) : Nat := x % (2 ^ 64)

/-- Bitwise complement on 64 bits. -/
def not64 (x : Nat) : Nat := x ^^^ (2 ^ 64 - 1)

/-- Rotate a 64-bit word right by `n` (for `0 < n < 64`). -/
def rotr64 (x n : Nat) : Nat := w64 ((x >>> n) ||| (x <<< (64 - n)))

/-- SHA-512 choice function. -/
def sha2Ch (x y z : Nat) : Nat := (x &&& y) ^^^ (not64 x &&& z)

/-- SHA-512 majority function. -/
def sha2Maj (x y z : Nat) : Nat := (x &&& y) ^^^ (x &&& z) ^^^ (y &&& z)

/-- SHA-512 Σ₀. -/
def bsig0 (x : Nat) : Nat := rotr64 x 28 ^^^ rotr64 x 34 ^^^ rotr64 x 39

/-- SHA-512 Σ₁. -/
def bsig1 (x : Nat) : Nat := rotr64 x 14 ^^^ rotr64 x 18 ^^^ rotr64 x 41

/-- SHA-512 σ₀. -/
def ssig0 (x : Nat) : Nat := rotr64 x 1 ^^^ rotr64 x 8 ^^^ (x >>> 7)

/-- SHA-512 σ₁. -/
def ssig1 (x : Nat) : Nat := rotr64 x 19 ^^^ rotr64 x 61 ^^^ (x >>> 6)

/-- Fueled binary search for the integer cube root (largest `r` with
`r ^ 3 ≤ n`), maintaining `lo ^ 3 ≤ n < hi ^ 3`. -/
def icbrtAux (n : Nat) : Nat → Nat → Nat → Nat
  | 0, lo, _ => lo
  | fuel + 1, lo, hi =>
    if hi ≤ lo + 1 then lo
    else
      let m := (lo + hi) / 2
      if m ^ 3 ≤ n then icbrtAux n fuel m hi else icbrtAux n fuel lo m

/-- Integer cube root. -/
def icbrt (n : Nat) : Nat := icbrtAux n 512 0 (n + 1)

/-- Fueled binary search for the integer square root, maintaining
`lo ^ 2 ≤ n < hi ^ 2`. -/
def isqrtAux (n : Nat) : Nat → Nat → Nat → Nat
  | 0, lo, _ => lo
  | fuel + 1, lo, hi =>
    if hi ≤ lo + 1 then lo
    else
      let m := (lo + hi) / 2
      if m ^ 2 ≤ n then isqrtAux n fuel m hi else isqrtAux n fuel lo m

/-- Integer square root. -/
def isqrt (n : Nat) : Nat := isqrtAux n 512 0 (n + 1)

/-- The first 80 primes; cube roots of these seed the SHA-512 round
constants (FIPS 180-4 §4.2.3). -/
def primes80 : List Nat :=
  [2, 3, 5, 7, 11, 13, 17, 19, 23, 29, 31, 37, 41, 43, 47, 53,
   59, 61, 67, 71, 73, 79, 83, 89, 97, 101, 103, 107, 109, 113, 127, 131,
   137, 139, 149, 151, 157, 163, 167, 173, 179, 181, 191, 193, 197, 199,
   211, 223, 227, 229, 233, 239, 241, 251, 257, 263, 269, 271, 277, 281,
   283, 293, 307, 311, 313, 317, 331, 337, 347, 349, 353, 359, 367, 373,
   379, 383, 389, 397, 401, 409]

/-- SHA-512 round constants: first 64 bits of the fractional parts of the
cube roots of the first 80 primes. -/
def sha512K : List Nat := primes80.map (fun p => icbrt (p <<< 192) % (2 ^ 64))

/-- SHA-512 initial hash value: first 64 bits of the fractional parts of
the square roots of the first 8 primes. -/
def sha512IV : List Nat :=
  [2, 3, 5, 7, 11, 13, 17, 19].map (fun p => isqrt (p <<< 128) % (2 ^ 64))

/-- One step of the message-schedule extension; the accumulator holds the
schedule so far, most recent word first.  The match on the freshly
computed word forces it to a numeral, keeping evaluation shallow. -/
def schedExtend : Nat → List Nat → List Nat
  | 0, acc => acc
  | fuel + 1, acc =>
    match w64 (ssig1 (acc.getD 1 0) + acc.getD 6 0 +
               ssig0 (acc.getD 14 0) + acc.getD 15 0) with
    | 0 => schedExtend fuel (0 :: acc)
    | Nat.succ m => schedExtend fuel (Nat.succ m :: acc)

/-- Full 80-word message schedule for one 16-word block. -/
def sha512Schedule (block : List Nat) : List Nat :=
  (schedExtend 64 block.reverse).reverse

/-- Pack the eight 64-bit working variables into one 512-bit natural, so
that each compression round evaluates to a single numeric literal. -/
def statePack (a b c d e f g h : Nat) : Nat :=
  ((((((a <<< 64 ||| b) <<< 64 ||| c) <<< 64 ||| d) <<< 64 ||| e) <<< 64
      ||| f) <<< 64 ||| g) <<< 64 ||| h

/-- Extract working variable `i` (0 = `a` … 7 = `h`) from a packed state. -/
def stateGet (s i : Nat) : Nat := (s >>> (64 * (7 - i))) % (2 ^ 64)

/-- One SHA-512 round, fed a pair (round constant, schedule word). -/
def sha512Round (s : Nat) (kw : Nat × Nat) : Nat :=
  let a := stateGet s 0
  let b := stateGet s 1
  let c := stateGet s 2
  let d := stateGet s 3
  let e := stateGet s 4
  let f := stateGet s 5
  let g := stateGet s 6
  let h := stateGet s 7
  let t1 := w64 (h + bsig1 e + sha2Ch e f g + kw.1 + kw.2)
  let t2 := w64 (bsig0 a + sha2Maj a b c)
  statePack (w64 (t1 + t2)) a b c (w64 (d + t1)) e f g

/-- Left fold of the round function that forces each intermediate state to
a numeral (via the match) before recursing, keeping evaluation shallow. -/
def foldRounds : List (Nat × Nat) → Nat → Nat
  | [], s => s
  | kw :: rest, s =>
    match sha512Round s kw with
    | 0 => foldRounds rest 0
    | Nat.succ m => foldRounds rest (Nat.succ m)

/-- Compress one 16-word block into the running packed hash value. -/
def sha512Compress (H : Nat) (block : List Nat) : Nat :=
  let s := foldRounds (sha512K.zip (sha512Schedule block)) H
  statePack
    (w64 (stateGet H 0 + stateGet s 0)) (w64 (stateGet H 1 + stateGet s 1))
    (w64 (stateGet H 2 + stateGet s 2)) (w64 (stateGet H 3 + stateGet s 3))
    (w64 (stateGet H 4 + stateGet s 4)) (w64 (stateGet H 5 + stateGet s 5))
    (w64 (stateGet H 6 + stateGet s 6)) (w64 (stateGet H 7 + stateGet s 7))

/-- Fueled worker for `chunksOf`; structural recursion on the fuel keeps
the definition reducible inside the kernel. -/
def chunksOfAux (n : Nat) : Nat → List α → List (List α)
  | 0, _ => []
  | _, [] => []
  | fuel + 1, x :: xs => (x :: xs.take (n - 1)) :: chunksOfAux n fuel (xs.drop (n - 1))

/-- Split a list into chunks of `n` elements (`n ≥ 1`). -/
def chunksOf (n : Nat) (l : List α) : List (List α) := chunksOfAux n l.length l

/-- Big-endian bytes of `val`, `nbytes` wide. -/
def natToBytesBE (nbytes val : Nat) : List Nat :=
  (List.range nbytes).map (fun i => (val >>> (8 * (nbytes - 1 - i))) % 256)

/-- SHA-512 padding: `0x80`, zeros to 112 mod 128, 16-byte bit length. -/
def sha512Pad (msg : List Nat) : List Nat :=
  let l := msg.length
  let k := (128 - (l + 17) % 128) % 128
  msg ++ [0x80] ++ List.replicate k 0 ++ natToBytesBE 16 (l * 8)

/-- Assemble a block of 128 bytes into 16 big-endian 64-bit words. -/
def blockWords (block : List Nat) : List Nat :=
  (chunksOf 8 block).map (fun bs => bs.foldl (fun acc b => acc * 256 + b) 0)

/-- SHA-512 digest of a byte list, as eight 64-bit words. -/
def sha512Words (msg : List Nat) : List Nat :=
  let final := ((chunksOf 128 (sha512Pad msg)).map blockWords).foldl
    sha512Compress (sha512IV.foldl (fun acc word => acc <<< 64 ||| word) 0)
  (List.range 8).map (stateGet final)

/-- SHA-512 digest of a byte list as 128 lowercase hex characters; embeds
`hashlib.sha512(bytes).hexdigest()`. -/
def sha512Hex (msg : List Nat) : String :=
  String.mk (((sha512Words msg).map word64Hex).flatten)

/-! ## UTF-8 encoding (embeds `str.encode("utf-8")`) -/

/-- UTF-8 bytes of a single code point. -/
def utf8Char (c : Char) : List Nat :=
  let n := c.toNat
  if n < 0x80 then [n]
  else if n < 0x800 then
    [0xC0 ||| (n >>> 6), 0x80 ||| (n &&& 0x3F)]
  else if n < 0x10000 then
    [0xE0 ||| (n >>> 12), 0x80 ||| ((n >>> 6) &&& 0x3F), 0x80 ||| (n &&& 0x3F)]
  else
    [0xF0 ||| (n >>> 18), 0x80 ||| ((n >>> 12) &&& 0x3F),
     0x80 ||| ((n >>> 6) &&& 0x3F), 0x80 ||| (n &&& 0x3F)]

/-- UTF-8 encoding of a string, as a byte list. -/
def utf8Encode (s : String) : List Nat := (s.data.map utf8Char).flatten

/-! ## Timestamps (embeds the `datetime` values used by the routers) -/

/-- A wall-clock timestamp at second precision, as handled by the API
(`datetime` without timezone). -/
structure DateTime where
  year : Nat
  month : Nat
  day : Nat
  hour : Nat
  minute : Nat
  second : Nat
deriving DecidableEq

/-- Embeds `incident_date.strftime("%Y-%m-%d %H:%M:%S")`. -/
def fmtDateTime (d : DateTime) : String :=
  natPad 4 d.year ++ "-" ++ natPad 2 d.month ++ "-" ++ natPad 2 d.day ++ " " ++
  natPad 2 d.hour ++ ":" ++ natPad 2 d.minute ++ ":" ++ natPad 2 d.second

/-- Embeds Python `datetime` comparison: lexicographic on the components. -/
def dtLtB (a b : DateTime) : Bool :=
  if a.year ≠ b.year then a.year < b.year
  else if a.month ≠ b.month then a.month < b.month
  else if a.day ≠ b.day then a.day < b.day
  else if a.hour ≠ b.hour then a.hour < b.hour
  else if a.minute ≠ b.minute then a.minute < b.minute
  else decide (a.second < b.second)

/-! ## Rational truncation and fixed-point formatting

`float` arithmetic of the source is idealised as exact arithmetic on `ℚ`.
-/

/-- Embeds Python `int(q)`: truncation toward zero. -/
def ratTrunc (q : ℚ) : ℤ := q.num.tdiv q.den

/-- Truncate a rational toward zero at 6 decimal places:
`int(value * 10 ** 6) / 10 ** 6` with `factor = 10 ** 6`. -/
def truncQ6 (q : ℚ) : ℚ := (ratTrunc (q * 1000000) : ℚ) / 1000000

/-- Round to the nearest integer, ties to the even integer. -/
def roundHalfEven (q : ℚ) : ℤ :=
  let f := ⌊q⌋
  if q - f < 1 / 2 then f
  else if 1 / 2 < q - f then f + 1
  else if f % 2 = 0 then f else f + 1

/-- Embeds Python `f"{x:.6f}"`: fixed-point rendering with exactly 6
fractional digits, correctly rounded (ties to even), the sign taken from
the value itself. -/
def fmtFixed6 (q : ℚ) : String :=
  let n := (roundHalfEven (q * 1000000)).natAbs
  (if q < 0 then "-" else "") ++
    natDecimal (n / 1000000) ++ "." ++ natPad 6 (n % 1000000)

/-! ## `util/id_generators.py` -/

/-- Embeds `generate_crash_record_id`: SHA-512 hex digest of the UTF-8
bytes of `date_str + lat_str + lon_str + street_no + street_name`, where
the date is `"%Y-%m-%d %H:%M:%S"` and the coordinates are `f"{x:.6f}"`. -/
def generate_crash_record_id (incident_date : DateTime) (latitude longitude : ℚ)
    (street_no : ℤ) (street_name : String) : String :=
  let date_str := fmtDateTime incident_date
  let lat_str := fmtFixed6 latitude
  let lon_str := fmtFixed6 longitude
  let components := date_str ++ lat_str ++ lon_str ++
    intDecimal street_no ++ street_name
  sha512Hex (utf8Encode components)

/-- Embeds `truncate_coordinates` at its default `decimals = 6` (the only
way the routers call it): `int(value * factor) / factor` on each input. -/
def truncate_coordinates (latitude longitude : ℚ) : ℚ × ℚ :=
  (truncQ6 latitude, truncQ6 longitude)

/-- The SQL regex `^Q[0-9]{7}$` from `generate_person_id`. -/
def personPatternOk (s : String) : Bool :=
  s.length == 8 && s.data.take 1 == ['Q'] && (s.data.drop 1).all Char.isDigit

/-- Decimal value of a digit string (`CAST(... AS INTEGER)`). -/
def digitsVal (cs : List Char) : Nat :=
  cs.foldl (fun a c => 10 * a + (c.toNat - 48)) 0

/-- Numeric suffix of a person id: `SUBSTRING(person_id FROM 2)` cast. -/
def personSuffix (s : String) : Nat := digitsVal (s.data.drop 1)

/-- The tagged failures of the validation / identifier core.  The source
raises `HTTPException(status_code, detail)` for all but the last, which is
a `ValueError` from `generate_person_id`; the constructors record the
distinct check sites named by the spec's taxonomy. -/
inductive ApiError where
  | outOfRange (field : String)
  | tooLong (field : String)
  | futureDate (field : String)
  | invalidBoolean
  | referenceNotFound (column : String)
  | alreadyExists (key : String)
  | notFound (key : String)
  | exhaustedIdentifierSpace
deriving DecidableEq

/-- HTTP status each failure is raised with (the `ValueError` for id-space
exhaustion is mapped by `people.py` to a 500). -/
def ApiError.statusCode : ApiError → Nat
  | .outOfRange _ => 400
  | .tooLong _ => 400
  | .futureDate _ => 400
  | .invalidBoolean => 400
  | .referenceNotFound _ => 404
  | .alreadyExists _ => 409
  | .notFound _ => 404
  | .exhaustedIdentifierSpace => 500

/-- Embeds `generate_person_id`: `COALESCE(MAX(CAST(SUBSTRING(person_id
FROM 2) AS INTEGER)), 0) + 1` over rows matching `^Q[0-9]{7}$`, raising
(`ValueError`, embedded as the distinct tag `exhaustedIdentifierSpace`)
when the next number would exceed 9999999, else `f"Q{next_num:07d}"`. -/
def generate_person_id (ids : List String) : Except ApiError String :=
  let next_num := ((ids.filter personPatternOk).map personSuffix).foldl max 0 + 1
  if next_num > 9999999 then .error .exhaustedIdentifierSpace
  else .ok ("Q" ++ natPad 7 next_num)

/-! ## `util/validators.py` -/

/-- Embeds `validate_coordinates`. -/
def validate_coordinates (latitude longitude : ℚ) : Except ApiError Unit :=
  if ¬(-90 ≤ latitude ∧ latitude ≤ 90) then .error (.outOfRange "latitude")
  else if ¬(-180 ≤ longitude ∧ longitude ≤ 180) then
    .error (.outOfRange "longitude")
  else .ok ()

/-- Embeds `validate_non_negative` for integer-valued fields. -/
def validate_non_negative (value : ℤ) (fname : String) : Except ApiError Unit :=
  if value < 0 then .error (.outOfRange fname) else .ok ()

/-- Embeds `validate_non_negative` for float-valued fields. -/
def validate_non_negative_q (value : ℚ) (fname : String) : Except ApiError Unit :=
  if value < 0 then .error (.outOfRange fname) else .ok ()

/-- Embeds `validate_date_not_future` (`now` is the wall clock at
validation time). -/
def validate_date_not_future (now date : DateTime) (fname : String) :
    Except ApiError Unit :=
  if dtLtB now date then .error (.futureDate fname) else .ok ()

/-- Embeds `validate_string_length` (the `if value and ...` truthiness
check skips the empty string). -/
def validate_string_length (value : String) (max_length : Nat)
    (fname : String) : Except ApiError Unit :=
  if value ≠ "" ∧ value.length > max_length then .error (.tooLong fname)
  else .ok ()

/-- Embeds `validate_age`. -/
def validate_age (age : ℤ) : Except ApiError Unit :=
  if age < 0 then .error (.outOfRange "age")
  else if age > 120 then .error (.outOfRange "age")
  else .ok ()

/-- Embeds `validate_foreign_key_exists` over a table abstracted to the
list of values in its key column: `None` is vacuously valid, otherwise a
row with the value must exist. -/
def validate_foreign_key_exists [BEq α] (table : List α) (column : String)
    (value : Option α) : Except ApiError Unit :=
  match value with
  | none => .ok ()
  | some v => if table.contains v then .ok () else .error (.referenceNotFound column)

/-- The dynamically typed values `normalize_boolean` can receive. -/
inductive PyVal where
  | pyBool (b : Bool)
  | pyInt (n : ℤ)
  | pyFloat (q : ℚ)
  | pyStr (s : String)
deriving DecidableEq

/-- Embeds `normalize_boolean`: `None` passes through, native booleans are
returned as-is, numeric `0`/`1` convert, strings are lowercased/stripped
and matched against `{"true","1","yes"}` / `{"false","0","no"}`; anything
else fails. -/
def normalize_boolean : Option PyVal → Except ApiError (Option Bool)
  | none => .ok none
  | some (.pyBool b) => .ok (some b)
  | some (.pyInt n) =>
    if n = 0 ∨ n = 1 then .ok (some (n == 1)) else .error .invalidBoolean
  | some (.pyFloat q) =>
    if q = 0 ∨ q = 1 then .ok (some (q == 1)) else .error .invalidBoolean
  | some (.pyStr s) =>
    let l := s.toLower.trim
    if l ∈ ["true", "1", "yes"] then .ok (some true)
    else if l ∈ ["false", "0", "no"] then .ok (some false)
    else .error .invalidBoolean

/-! ## Crashes (`db/entities/crashes.py`, `api/routers/crashes.py`) -/

/-- A stored Crash row. -/
structure Crash where
  crash_record_id : String
  incident_date : DateTime
  latitude : ℚ
  longitude : ℚ
  street_no : Option ℤ
  street_name : Option String
deriving DecidableEq

/-- The crashes table, in insertion order. -/
abbrev CrashStore := List Crash

/-- The `CreateCrash` request schema (`api/models/crashes.py`), after the
framework has parsed the payload into the declared field types. -/
structure CreateCrash where
  incident_date : DateTime
  latitude : ℚ
  longitude : ℚ
  street_no : Option ℤ
  street_name : Option String
deriving DecidableEq

/-- `db.query(Crash).get(crash_record_id)`. -/
def findCrash (store : CrashStore) (id : String) : Option Crash :=
  store.find? (fun c => c.crash_record_id == id)

/-- Validations 1–4 of `CrashesRouter.create`, in source order. -/
def crashCreateChecks (now : DateTime) (data : CreateCrash) :
    Except ApiError Unit :=
  (validate_coordinates data.latitude data.longitude).bind fun _ =>
  (validate_date_not_future now data.incident_date "incident_date").bind fun _ =>
  ((match data.street_name with
   | some s =>
     if s ≠ "" then validate_string_length s 255 "street_name" else .ok ()
   | none => .ok ()) : Except ApiError Unit).bind fun _ =>
  match data.street_no with
  | some n => validate_non_negative n "street_no"
  | none => .ok ()

/-- Embeds `CrashesRouter.create`: validate, truncate the coordinates,
generate the hash id (with `0` / `""` defaults for missing street data),
reject a duplicate id with a 409, otherwise insert the row (which stores
the truncated coordinates and the original optional street fields). -/
def crashesCreate (now : DateTime) (store : CrashStore) (data : CreateCrash) :
    Except ApiError Crash × CrashStore :=
  match crashCreateChecks now data with
  | .error e => (.error e, store)
  | .ok _ =>
    let (lat_truncated, lon_truncated) :=
      truncate_coordinates data.latitude data.longitude
    let cid := generate_crash_record_id data.incident_date lat_truncated
      lon_truncated (data.street_no.getD 0) (data.street_name.getD "")
    match findCrash store cid with
    | some _ => (.error (.alreadyExists cid), store)
    | none =>
      let new_crash : Crash :=
        ⟨cid, data.incident_date, lat_truncated, lon_truncated,
         data.street_no, data.street_name⟩
      (.ok new_crash, store ++ [new_crash])

/-- The `UpdateCrash` request schema: `none` means the field was absent
from the payload (`model_dump(exclude_unset=True)` drops it); for the
nullable street fields an explicit `null` is `some none`. -/
structure UpdateCrash where
  incident_date : Option DateTime := none
  latitude : Option ℚ := none
  longitude : Option ℚ := none
  street_no : Option (Option ℤ) := none
  street_name : Option (Option String) := none
deriving DecidableEq

/-- The validation block of `CrashesRouter.update`, in source order: the
coordinate check merges provided values with the stored ones. -/
def crashUpdateChecks (now : DateTime) (crash : Crash) (data : UpdateCrash) :
    Except ApiError Unit :=
  (if data.latitude.isSome || data.longitude.isSome then
    validate_coordinates (data.latitude.getD crash.latitude)
      (data.longitude.getD crash.longitude)
   else .ok ()).bind fun _ =>
  ((match data.incident_date with
   | some d => validate_date_not_future now d "incident_date"
   | none => .ok ()) : Except ApiError Unit).bind fun _ =>
  ((match data.street_no with
   | some (some n) => validate_non_negative n "street_no"
   | _ => .ok ()) : Except ApiError Unit).bind fun _ =>
  match data.street_name with
  | some (some s) =>
    if s ≠ "" then validate_string_length s 255 "street_name" else .ok ()
  | _ => .ok ()

/-- The `setattr` loop of `CrashesRouter.update`: provided fields
overwrite, absent fields keep their stored values; the primary key is not
touched (`UpdateCrash` has no such field). -/
def applyCrashUpdate (crash : Crash) (data : UpdateCrash) : Crash :=
  { crash with
    incident_date := data.incident_date.getD crash.incident_date
    latitude := data.latitude.getD crash.latitude
    longitude := data.longitude.getD crash.longitude
    street_no := data.street_no.getD crash.street_no
    street_name := data.street_name.getD crash.street_name }

/-- Embeds `CrashesRouter.update`: 404 when the row is absent, then the
validation block, then the `setattr` loop followed by `db.flush()`. -/
def crashesUpdate (now : DateTime) (store : CrashStore) (id : String)
    (data : UpdateCrash) : Except ApiError Crash × CrashStore :=
  match findCrash store id with
  | none => (.error (.notFound id), store)
  | some crash =>
    match crashUpdateChecks now crash data with
    | .error e => (.error e, store)
    | .ok _ =>
      let crash' := applyCrashUpdate crash data
      (.ok crash',
       store.map (fun c => if c.crash_record_id == id then crash' else c))

/-- Embeds `CrashesRouter.delete` (restricted to the crashes table; the
cascade to satellite tables is outside this store). -/
def crashesDelete (store : CrashStore) (id : String) :
    Except ApiError Unit × CrashStore :=
  match findCrash store id with
  | none => (.error (.notFound id), store)
  | some _ => (.ok (), store.filter (fun c => c.crash_record_id ≠ id))

/-! ## Crash circumstances (`api/routers/crash_circumstances.py`) -/

/-- A stored CrashCircumstances row. -/
structure CrashCircumstances where
  crash_record_id : String
  traffic_control_device : Option String
  device_condition : Option String
  weather_condition : Option String
  lighting_condition : Option String
  lane_cnt : Option ℤ
  roadway_surface_cond : Option String
  road_defect : Option String
  num_units : Option ℤ
  posted_speed_limit : Option ℤ
  intersection_related_i : Option Bool
  not_right_of_way_i : Option Bool
deriving DecidableEq

/-- The `CreateCrashCircumstances` payload, with the declared field
types. -/
structure CreateCrashCircumstances where
  crash_record_id : String
  traffic_control_device : Option String := none
  device_condition : Option String := none
  weather_condition : Option String := none
  lighting_condition : Option String := none
  lane_cnt : Option ℤ := none
  roadway_surface_cond : Option String := none
  road_defect : Option String := none
  num_units : Option ℤ := none
  posted_speed_limit : Option ℤ := none
  intersection_related_i : Option Bool := none
  not_right_of_way_i : Option Bool := none
deriving DecidableEq

/-- Schema-level length bound (`Field(max_length=…)`), vacuous on `none`. -/
def fieldMaxLen (v : Option String) (maxLen : Nat) (fname : String) :
    Except ApiError Unit :=
  match v with
  | none => .ok ()
  | some s => if s.length > maxLen then .error (.tooLong fname) else .ok ()

/-- Schema-level inclusive integer range (`Field(ge=…, le=…)`), vacuous on
`none`. -/
def fieldIntRange (v : Option ℤ) (lo hi : ℤ) (fname : String) :
    Except ApiError Unit :=
  match v with
  | none => .ok ()
  | some n => if lo ≤ n ∧ n ≤ hi then .ok () else .error (.outOfRange fname)

/-- Schema-level inclusive float range (`Field(ge=…, le=…)`), vacuous on
`none`. -/
def fieldRatRange (v : Option ℚ) (lo hi : ℚ) (fname : String) :
    Except ApiError Unit :=
  match v with
  | none => .ok ()
  | some q => if lo ≤ q ∧ q ≤ hi then .ok () else .error (.outOfRange fname)

/-- The `Field(...)` constraints declared on `CreateCrashCircumstances` in
`api/models/crash_circumstances.py`, enforced by the request-parsing
boundary before the router body runs. -/
def circSchemaCheck (data : CreateCrashCircumstances) : Except ApiError Unit :=
  (fieldMaxLen data.traffic_control_device 100 "traffic_control_device").bind fun _ =>
  (fieldMaxLen data.device_condition 100 "device_condition").bind fun _ =>
  (fieldMaxLen data.weather_condition 100 "weather_condition").bind fun _ =>
  (fieldMaxLen data.lighting_condition 100 "lighting_condition").bind fun _ =>
  (fieldIntRange data.lane_cnt 0 25 "lane_cnt").bind fun _ =>
  (fieldMaxLen data.roadway_surface_cond 100 "roadway_surface_cond").bind fun _ =>
  (fieldMaxLen data.road_defect 100 "road_defect").bind fun _ =>
  (fieldIntRange data.num_units 0 100 "num_units").bind fun _ =>
  fieldIntRange data.posted_speed_limit 0 500 "posted_speed_limit"

/-- `normalize_boolean` as the routers call it on an already-typed
optional boolean column (`if data_dict[key] is not None: ... normalize`). -/
def normalizeBoolField (b : Option Bool) : Except ApiError (Option Bool) :=
  match b with
  | none => .ok none
  | some v => normalize_boolean (some (.pyBool v))

/-- The result computed by `CrashCircumstancesRouter.create` (in source
order: FK existence, duplicate check, non-negativity, boolean
normalization), after the schema constraints have been enforced. -/
def circCreateResult (crashIds : List String)
    (store : List CrashCircumstances) (data : CreateCrashCircumstances) :
    Except ApiError CrashCircumstances :=
  (circSchemaCheck data).bind fun _ =>
  (validate_foreign_key_exists crashIds "crash_record_id"
    (some data.crash_record_id)).bind fun _ =>
  ((match store.find? (fun r => r.crash_record_id == data.crash_record_id) with
   | some _ => .error (.alreadyExists data.crash_record_id)
   | none => .ok ()) : Except ApiError Unit).bind fun _ =>
  ((match data.lane_cnt with
   | some n => validate_non_negative n "lane_cnt"
   | none => .ok ()) : Except ApiError Unit).bind fun _ =>
  ((match data.num_units with
   | some n => validate_non_negative n "num_units"
   | none => .ok ()) : Except ApiError Unit).bind fun _ =>
  ((match data.posted_speed_limit with
   | some n => validate_non_negative n "posted_speed_limit"
   | none => .ok ()) : Except ApiError Unit).bind fun _ =>
  (normalizeBoolField data.intersection_related_i).bind fun ir =>
  (normalizeBoolField data.not_right_of_way_i).bind fun nr =>
  .ok ⟨data.crash_record_id, data.traffic_control_device,
    data.device_condition, data.weather_condition, data.lighting_condition,
    data.lane_cnt, data.roadway_surface_cond, data.road_defect,
    data.num_units, data.posted_speed_limit, ir, nr⟩

/-- Embeds the `CrashCircumstancesRouter.create` call (schema plus router
body); any failure is raised before the insert, leaving the table as it
was. -/
def circCreate (crashIds : List String) (store : List CrashCircumstances)
    (data : CreateCrashCircumstances) :
    Except ApiError CrashCircumstances × List CrashCircumstances :=
  match circCreateResult crashIds store data with
  | .error e => (.error e, store)
  | .ok row => (.ok row, store ++ [row])

/-! ## Driver info (`api/routers/driver_info.py`) -/

/-- A stored DriverInfo row. -/
structure DriverInfo where
  person_id : String
  driver_action : Option String
  driver_vision : Option String
  physical_condition : Option String
  bac_result_value : Option ℚ
  cell_phone_use : Option Bool
  drivers_license_class : Option String
deriving DecidableEq

/-- The `CreateDriverInfo` payload, with the declared field types. -/
structure CreateDriverInfo where
  person_id : String
  driver_action : Option String := none
  driver_vision : Option String := none
  physical_condition : Option String := none
  bac_result_value : Option ℚ := none
  cell_phone_use : Option Bool := none
  drivers_license_class : Option String := none
deriving DecidableEq

/-- The `Field(...)` constraints declared on `CreateDriverInfo` in
`api/models/driver_info.py` (string lengths; `bac_result_value` carries
`ge=0.0, le=1.0`), enforced before the router body runs. -/
def driverSchemaCheck (data : CreateDriverInfo) : Except ApiError Unit :=
  (fieldMaxLen data.driver_action 50 "driver_action").bind fun _ =>
  (fieldMaxLen data.driver_vision 50 "driver_vision").bind fun _ =>
  (fieldMaxLen data.physical_condition 50 "physical_condition").bind fun _ =>
  (fieldRatRange data.bac_result_value 0 1 "bac_result_value").bind fun _ =>
  fieldMaxLen data.drivers_license_class 10 "drivers_license_class"

/-- The result computed by `DriverInfoRouter.create` (in source order: FK
existence of the person, duplicate check, the router's inline negative-BAC
double check), after the schema constraints. -/
def driverCreateResult (peopleIds : List String) (store : List DriverInfo)
    (data : CreateDriverInfo) : Except ApiError DriverInfo :=
  (driverSchemaCheck data).bind fun _ =>
  (validate_foreign_key_exists peopleIds "person_id" (some data.person_id)).bind fun _ =>
  ((match store.find? (fun r => r.person_id == data.person_id) with
   | some _ => .error (.alreadyExists data.person_id)
   | none => .ok ()) : Except ApiError Unit).bind fun _ =>
  ((match data.bac_result_value with
   | some q =>
     if q < 0 then .error (.outOfRange "bac_result_value") else .ok ()
   | none => .ok ()) : Except ApiError Unit).bind fun _ =>
  .ok ⟨data.person_id, data.driver_action, data.driver_vision,
    data.physical_condition, data.bac_result_value, data.cell_phone_use,
    data.drivers_license_class⟩

/-- Embeds the `DriverInfoRouter.create` call (schema plus router body). -/
def driverCreate (peopleIds : List String) (store : List DriverInfo)
    (data : CreateDriverInfo) : Except ApiError DriverInfo × List DriverInfo :=
  match driverCreateResult peopleIds store data with
  | .error e => (.error e, store)
  | .ok row => (.ok row, store ++ [row])

/-! ## Vehicle violations (`api/routers/vehicle_violations.py`) -/

/-- A stored VehicleViolations row. -/
structure VehicleViolation where
  vehicle_id : ℤ
  cmrc_veh_i : Option Bool
  exceed_speed_limit_i : Option Bool
  hazmat_present_i : Option Bool
  vehicle_defect : Option String
deriving DecidableEq

/-- The `CreateVehicleViolation` payload, with the declared field types
(the indicator fields are `Optional[bool]`, so they reach the router
already parsed to booleans). -/
structure CreateVehicleViolation where
  vehicle_id : ℤ
  cmrc_veh_i : Option Bool := none
  exceed_speed_limit_i : Option Bool := none
  hazmat_present_i : Option Bool := none
  vehicle_defect : Option String := none
deriving DecidableEq

/-- The `UpdateVehicleViolation` payload: `none` means the field was
absent (`exclude_unset=True`). -/
structure UpdateVehicleViolation where
  cmrc_veh_i : Option Bool := none
  exceed_speed_limit_i : Option Bool := none
  hazmat_present_i : Option Bool := none
  vehicle_defect : Option String := none
deriving DecidableEq

/-- The result computed by `VehicleViolationsRouter.create` (in source
order: FK existence of the vehicle, duplicate check, defect length,
boolean normalization of the three indicator columns). -/
def vvCreateResult (vehicleIds : List ℤ) (store : List VehicleViolation)
    (data : CreateVehicleViolation) : Except ApiError VehicleViolation :=
  (fieldMaxLen data.vehicle_defect 100 "vehicle_defect").bind fun _ =>
  (validate_foreign_key_exists vehicleIds "vehicle_id"
    (some data.vehicle_id)).bind fun _ =>
  ((match store.find? (fun r => r.vehicle_id == data.vehicle_id) with
   | some _ => .error (.alreadyExists (intDecimal data.vehicle_id))
   | none => .ok ()) : Except ApiError Unit).bind fun _ =>
  ((match data.vehicle_defect with
   | some s =>
     if s ≠ "" then validate_string_length s 100 "vehicle_defect" else .ok ()
   | none => .ok ()) : Except ApiError Unit).bind fun _ =>
  (normalizeBoolField data.cmrc_veh_i).bind fun cm =>
  (normalizeBoolField data.exceed_speed_limit_i).bind fun ex =>
  (normalizeBoolField data.hazmat_present_i).bind fun hz =>
  .ok ⟨data.vehicle_id, cm, ex, hz, data.vehicle_defect⟩

/-- Embeds the `VehicleViolationsRouter.create` call. -/
def vvCreate (vehicleIds : List ℤ) (store : List VehicleViolation)
    (data : CreateVehicleViolation) :
    Except ApiError VehicleViolation × List VehicleViolation :=
  match vvCreateResult vehicleIds store data with
  | .error e => (.error e, store)
  | .ok row => (.ok row, store ++ [row])

/-- The `setattr` loop of `VehicleViolationsRouter.update`: provided
fields overwrite as given, with no boolean normalization step. -/
def applyVvUpdate (row : VehicleViolation) (data : UpdateVehicleViolation) :
    VehicleViolation :=
  { row with
    cmrc_veh_i := data.cmrc_veh_i.orElse (fun _ => row.cmrc_veh_i)
    exceed_speed_limit_i :=
      data.exceed_speed_limit_i.orElse (fun _ => row.exceed_speed_limit_i)
    hazmat_present_i := data.hazmat_present_i.orElse (fun _ => row.hazmat_present_i)
    vehicle_defect := data.vehicle_defect.orElse (fun _ => row.vehicle_defect) }

/-- Embeds `VehicleViolationsRouter.update`: 404 when absent, defect
length check, then the `setattr` loop. -/
def vvUpdate (store : List VehicleViolation) (vehicle_id : ℤ)
    (data : UpdateVehicleViolation) :
    Except ApiError VehicleViolation × List VehicleViolation :=
  match store.find? (fun r => r.vehicle_id == vehicle_id) with
  | none => (.error (.notFound (intDecimal vehicle_id)), store)
  | some row =>
    let lenCheck : Except ApiError Unit :=
      match data.vehicle_defect with
      | some s =>
        if s ≠ "" then validate_string_length s 100 "vehicle_defect" else .ok ()
      | none => .ok ()
    match lenCheck with
    | .error e => (.error e, store)
    | .ok _ =>
      let row' := applyVvUpdate row data
      (.ok row', store.map (fun r => if r.vehicle_id == vehicle_id then row' else r))

/-- The framework's parsing of an `Optional[bool]` request field
(`api/models/vehicle_violations.py` declares the three indicator columns
with this type), restricted to the representations the spec lists: native
booleans, numeric `0`/`1`, and the case-insensitive strings
`true`/`1`/`yes` and `false`/`0`/`no`. -/
def parseOptionalBool : Option PyVal → Except ApiError (Option Bool)
  | none => .ok none
  | some (.pyBool b) => .ok (some b)
  | some (.pyInt n) =>
    if n = 0 then .ok (some false)
    else if n = 1 then .ok (some true)
    else .error .invalidBoolean
  | some (.pyFloat q) =>
    if q = 0 then .ok (some false)
    else if q = 1 then .ok (some true)
    else .error .invalidBoolean
  | some (.pyStr s) =>
    let l := s.toLower.trim
    if l ∈ ["true", "1", "yes"] then .ok (some true)
    else if l ∈ ["false", "0", "no"] then .ok (some false)
    else .error .invalidBoolean

/-- The boolean value stored by the create path for one indicator column,
as a function of the raw payload representation: boundary parsing followed
by the router's `normalize_boolean` pass. -/
def vvCreateStoredBool (rep : Option PyVal) : Except ApiError (Option Bool) :=
  (parseOptionalBool rep).bind fun b => normalizeBoolField b

/-- The boolean value stored by the update path for one indicator column:
boundary parsing only (the router's `setattr` loop applies it raw). -/
def vvUpdateStoredBool (rep : Option PyVal) : Except ApiError (Option Bool) :=
  parseOptionalBool rep

/-! ## Content-hash invariant and reachable crash-store states -/

/-- The content hash recomputed from a stored row's attribute values, with
the same `0` / `""` defaults the create path uses. -/
def recomputedId (c : Crash) : String :=
  generate_crash_record_id c.incident_date c.latitude c.longitude
    (c.street_no.getD 0) (c.street_name.getD "")

/-- Every stored row's primary key equals its recomputed content hash. -/
def hashInvariant (store : CrashStore) : Prop :=
  ∀ c ∈ store, c.crash_record_id = recomputedId c

instance (store : CrashStore) : Decidable (hashInvariant store) :=
  inferInstanceAs (Decidable (∀ c ∈ store, c.crash_record_id = recomputedId c))

/-- Crash-store states reachable through the crashes router. -/
inductive Reachable : CrashStore → Prop where
  | empty : Reachable []
  | create (now : DateTime) (data : CreateCrash) {s : CrashStore} :
      Reachable s → Reachable (crashesCreate now s data).2
  | update (now : DateTime) (id : String) (data : UpdateCrash) {s : CrashStore} :
      Reachable s → Reachable (crashesUpdate now s id data).2
  | delete (id : String) {s : CrashStore} :
      Reachable s → Reachable (crashesDelete s id).2

/-- Crash-store states reachable using only create and delete. -/
inductive ReachableCD : CrashStore → Prop where
  | empty : ReachableCD []
  | create (now : DateTime) (data : CreateCrash) {s : CrashStore} :
      ReachableCD s → ReachableCD (crashesCreate now s data).2
  | delete (id : String) {s : CrashStore} :
      ReachableCD s → ReachableCD (crashesDelete s id).2

/-! ## Spec-side formulations and concrete instances -/

/-- Formulated from the spec's words for claim C1: the coordinate
truncated toward zero at 6 decimal places (floor of the scaled value for
nonnegative inputs, ceiling for negative ones) and rendered with exactly
6 fractional digits. -/
def specFixed6 (q : ℚ) : String :=
  let t : ℤ := if 0 ≤ q then ⌊q * 1000000⌋ else ⌈q * 1000000⌉
  (if t < 0 then "-" else "") ++
    natDecimal (t.natAbs / 1000000) ++ "." ++ natPad 6 (t.natAbs % 1000000)

/-- A sample incident timestamp. -/
def d0 : DateTime := ⟨2024, 1, 15, 14, 30, 0⟩

/-- A wall clock later than `d0`. -/
def now1 : DateTime := ⟨2024, 1, 16, 0, 0, 0⟩

/-- A sample valid create payload. -/
def data1 : CreateCrash := ⟨d0, 10, 20, some 1, some "A"⟩

/-- The id the create path generates for `data1`. -/
def dupId : String :=
  generate_crash_record_id data1.incident_date (truncQ6 data1.latitude)
    (truncQ6 data1.longitude) (data1.street_no.getD 0)
    (data1.street_name.getD "")

/-- The row the create path inserts for `data1`. -/
def firstRow : Crash :=
  ⟨dupId, data1.incident_date, truncQ6 data1.latitude,
   truncQ6 data1.longitude, data1.street_no, data1.street_name⟩

/-- A stored row with an arbitrary key, for exercising the update path. -/
def rowK : Crash := ⟨"k", d0, 0, 0, none, none⟩

/-- The store after creating `data1` in the empty store. -/
def exampleStore1 : CrashStore := (crashesCreate now1 [] data1).2

/-- An update payload that changes only the latitude. -/
def latUpdate30 : UpdateCrash := { latitude := some 30 }

/-- The store after updating the latitude of the row created from
`data1`. -/
def exampleStore2 : CrashStore :=
  (crashesUpdate now1 exampleStore1 dupId latUpdate30).2

/-! ## Arithmetic lemmas about truncation and fixed-point formatting -/

/-- `ratTrunc` of an integer is that integer. -/
theorem ratTrunc_intCast (k : ℤ) : ratTrunc (k : ℚ) = k := by
  simp [ratTrunc, Rat.num_intCast, Rat.den_intCast, Int.tdiv_one]

/-- Truncation toward zero is floor on nonnegatives, ceiling otherwise. -/
theorem ratTrunc_eq_floor_or_ceil (q : ℚ) :
    ratTrunc q = if 0 ≤ q then ⌊q⌋ else ⌈q⌉ := by
  by_cases h : 0 ≤ q
  · rw [if_pos h, Rat.floor_def, ratTrunc]
    exact Int.tdiv_eq_ediv (Rat.num_nonneg.mpr h) (Int.ofNat_nonneg _)
  · rw [if_neg h, ratTrunc]
    have hneg : 0 ≤ -q := by linarith [lt_of_not_le h]
    have h1 : (-q).num.tdiv ((-q).den : ℤ) = ⌊-q⌋ := by
      rw [Rat.floor_def]
      exact Int.tdiv_eq_ediv (Rat.num_nonneg.mpr hneg) (Int.ofNat_nonneg _)
    have h2 : (-q).num = -q.num := Rat.neg_num q
    have h3 : (-q).den = q.den := Rat.neg_den q
    have h4 : (-q.num).tdiv (q.den : ℤ) = ⌊-q⌋ := by
      rw [← h2, ← h3]; exact h1
    have h5 : q.num.tdiv (q.den : ℤ) = -⌊-q⌋ := by
      have := Int.neg_tdiv q.num (q.den : ℤ)
      omega
    rw [h5, Int.floor_neg]
    simp

/-- Scaling by the positive factor preserves the sign test. -/
theorem nonneg_mul_million (q : ℚ) : 0 ≤ q * 1000000 ↔ 0 ≤ q := by
  constructor
  · intro h; nlinarith
  · intro h; positivity

/-- `truncQ6 q` scaled back up is the truncated integer. -/
theorem truncQ6_mul_million (q : ℚ) :
    truncQ6 q * 1000000 = (ratTrunc (q * 1000000) : ℚ) := by
  rw [truncQ6]; field_simp

/-- Truncation at 6 decimals is idempotent. -/
theorem truncQ6_idem (q : ℚ) : truncQ6 (truncQ6 q) = truncQ6 q := by
  show (ratTrunc (truncQ6 q * 1000000) : ℚ) / 1000000 = truncQ6 q
  rw [truncQ6_mul_million, ratTrunc_intCast, truncQ6]

/-- `ratTrunc` scaled by `10 ^ 6`, phrased through floor/ceiling on the
unscaled input's sign. -/
theorem ratTrunc_million_eq (q : ℚ) :
    ratTrunc (q * 1000000) =
      if 0 ≤ q then ⌊q * 1000000⌋ else ⌈q * 1000000⌉ := by
  rw [ratTrunc_eq_floor_or_ceil]
  by_cases h : 0 ≤ q
  · rw [if_pos h, if_pos ((nonneg_mul_million q).mpr h)]
  · rw [if_neg h, if_neg (fun hc => h ((nonneg_mul_million q).mp hc))]

/-- Rounding an integer (ties to even) returns the integer. -/
theorem roundHalfEven_intCast (k : ℤ) : roundHalfEven (k : ℚ) = k := by
  unfold roundHalfEven
  rw [Int.floor_intCast]
  norm_num

/-- `truncQ6` is negative on exactly the inputs whose truncation is. -/
theorem truncQ6_neg_iff (q : ℚ) : truncQ6 q < 0 ↔ ratTrunc (q * 1000000) < 0 := by
  unfold truncQ6
  constructor
  · intro h
    by_contra hc
    push_neg at hc
    have : (0 : ℚ) ≤ (ratTrunc (q * 1000000) : ℚ) := by exact_mod_cast hc
    have : (0 : ℚ) ≤ (ratTrunc (q * 1000000) : ℚ) / 1000000 := by positivity
    linarith
  · intro h
    have h1 : ((ratTrunc (q * 1000000) : ℚ)) < 0 := by exact_mod_cast h
    have : ((ratTrunc (q * 1000000) : ℚ)) / 1000000 < 0 := by
      apply div_neg_of_neg_of_pos h1; norm_num
    exact this

/-- Applying the Python `%.6f` formatter to the truncated coordinate
renders exactly the truncation, with 6 fractional digits. -/
theorem fmtFixed6_truncQ6 (q : ℚ) : fmtFixed6 (truncQ6 q) = specFixed6 q := by
  unfold fmtFixed6 specFixed6
  have h1 : roundHalfEven (truncQ6 q * 1000000) = ratTrunc (q * 1000000) := by
    rw [truncQ6_mul_million, roundHalfEven_intCast]
  have h2 : (if truncQ6 q < 0 then "-" else "") =
      (if (if 0 ≤ q then ⌊q * 1000000⌋ else ⌈q * 1000000⌉) < 0 then "-" else "") := by
    rw [if_congr (truncQ6_neg_iff q) rfl rfl, ratTrunc_million_eq]
  rw [h1, h2, ratTrunc_million_eq]

/-! ## Decimal rendering lemmas -/

/-- The fueled digit expansion agrees with `Nat.digits` once the fuel
covers the input. -/
theorem natDigitsAux_eq_digits (fuel : ℕ) :
    ∀ n : ℕ, n ≤ fuel → natDigitsAux fuel n = Nat.digits 10 n := by
  induction fuel with
  | zero =>
    intro n hn
    interval_cases n
    simp [natDigitsAux]
  | succ fuel ih =>
    intro n hn
    cases n with
    | zero => simp [natDigitsAux]
    | succ m =>
      show ((m + 1) % 10) :: natDigitsAux fuel ((m + 1) / 10) = _
      rw [Nat.digits_def' (by norm_num : (1:ℕ) < 10) (Nat.succ_pos m)]
      congr 1
      exact ih _ (by omega)

/-- `natDigits` computes the base-10 digits. -/
theorem natDigits_eq_digits (n : ℕ) : natDigits n = Nat.digits 10 n :=
  natDigitsAux_eq_digits n n le_rfl

/-- Decoding a digit character produced by the renderer. -/
theorem digit_char_toNat {d : ℕ} (hd : d < 10) :
    (Char.ofNat (48 + d)).toNat - 48 = d := by
  interval_cases d <;> rfl

/-- Characters produced by the renderer are digits. -/
theorem digit_char_isDigit {d : ℕ} (hd : d < 10) :
    (Char.ofNat (48 + d)).isDigit = true := by
  interval_cases d <;> rfl

/-- `digitsVal` over rendered digit characters is the digit fold. -/
theorem digitsVal_map_digit (l : List ℕ) (hl : ∀ d ∈ l, d < 10) :
    ∀ a : ℕ,
      (l.map (fun d => Char.ofNat (48 + d))).foldl
        (fun acc c => 10 * acc + (c.toNat - 48)) a =
      l.foldl (fun acc d => 10 * acc + d) a := by
  induction l with
  | nil => intro a; rfl
  | cons d t ih =>
    intro a
    simp only [List.map_cons, List.foldl_cons]
    rw [digit_char_toNat (hl d (List.mem_cons_self d t))]
    exact ih (fun x hx => hl x (List.mem_cons_of_mem d hx)) _

/-- The most-significant-first digit fold inverts `Nat.ofDigits`. -/
theorem foldl_reverse_ofDigits (l : List ℕ) :
    ∀ a : ℕ,
      l.reverse.foldl (fun acc d => 10 * acc + d) a =
        a * 10 ^ l.length + Nat.ofDigits 10 l := by
  induction l with
  | nil => intro a; simp [Nat.ofDigits_nil]
  | cons d t ih =>
    intro a
    rw [List.reverse_cons, List.foldl_append, ih a]
    simp only [List.foldl_cons, List.foldl_nil, Nat.ofDigits_cons,
      List.length_cons]
    ring

/-- Decoding the decimal rendering returns the number. -/
theorem digitsVal_natDecimalChars (n : ℕ) : digitsVal (natDecimalChars n) = n := by
  unfold digitsVal natDecimalChars
  rw [digitsVal_map_digit _ (fun d hd => Nat.digits_lt_base (by norm_num)
    ((natDigits_eq_digits n ▸ List.mem_reverse.mp hd)))]
  rw [natDigits_eq_digits, foldl_reverse_ofDigits, Nat.ofDigits_digits]
  simp

/-- Leading zero characters do not change the decoded value. -/
theorem digitsVal_replicate_zero (k : ℕ) (cs : List Char) :
    digitsVal (List.replicate k '0' ++ cs) = digitsVal cs := by
  unfold digitsVal
  rw [List.foldl_append]
  have h : ∀ j : ℕ, (List.replicate j '0').foldl
      (fun acc c => 10 * acc + (c.toNat - 48)) 0 = 0 := by
    intro j
    induction j with
    | zero => rfl
    | succ j ih => simpa [List.replicate_succ] using ih
  rw [h k]

/-- The decimal rendering of `n ≤ 9999999` uses at most 7 characters. -/
theorem natDecimal_length_le {n : ℕ} (hn : n ≤ 9999999) :
    (natDecimal n).length ≤ 7 := by
  by_cases h0 : n = 0
  · subst h0; decide
  · unfold natDecimal
    rw [if_neg h0]
    show (natDecimalChars n).length ≤ 7
    unfold natDecimalChars
    rw [List.length_map, List.length_reverse, natDigits_eq_digits]
    by_contra hc
    push_neg at hc
    have h1 := Nat.base_pow_length_digits_le 10 n (by norm_num) h0
    have h2 : (10 : ℕ) ^ 8 ≤ 10 ^ (Nat.digits 10 n).length :=
      Nat.pow_le_pow_right (by norm_num) hc
    omega

/-- Every character of the decimal rendering is a digit. -/
theorem natDecimal_chars_digits (n : ℕ) :
    ∀ c ∈ (natDecimal n).data, c.isDigit = true := by
  by_cases h0 : n = 0
  · subst h0; decide
  · unfold natDecimal
    rw [if_neg h0]
    intro c hc
    show c.isDigit = true
    obtain ⟨d, hd, rfl⟩ := List.mem_map.mp hc
    exact digit_char_isDigit
      (Nat.digits_lt_base (by norm_num)
        (natDigits_eq_digits n ▸ List.mem_reverse.mp hd))

/-- Decoding the decimal rendering of any `n`. -/
theorem digitsVal_natDecimal (n : ℕ) : digitsVal (natDecimal n).data = n := by
  by_cases h0 : n = 0
  · subst h0; decide
  · unfold natDecimal
    rw [if_neg h0]
    exact digitsVal_natDecimalChars n

/-- Shape of the zero-padded 7-digit rendering for `n ≤ 9999999`. -/
theorem natPad7_spec {n : ℕ} (hn : n ≤ 9999999) :
    (natPad 7 n).length = 7 ∧ (∀ c ∈ (natPad 7 n).data, c.isDigit = true) ∧
      digitsVal (natPad 7 n).data = n := by
  have hlen := natDecimal_length_le hn
  unfold natPad
  refine ⟨?_, ?_, ?_⟩
  · rw [String.length_append]
    show (List.replicate (7 - (natDecimal n).length) '0').length +
      (natDecimal n).length = 7
    rw [List.length_replicate]
    omega
  · intro c hc
    rw [String.data_append] at hc
    rcases List.mem_append.mp hc with h | h
    · have : c = '0' := List.eq_of_mem_replicate h
      subst this; rfl
    · exact natDecimal_chars_digits n c h
  · rw [String.data_append]
    show digitsVal (List.replicate (7 - (natDecimal n).length) '0' ++
      (natDecimal n).data) = n
    rw [digitsVal_replicate_zero, digitsVal_natDecimal]

/-! ## Person-id pattern lemmas -/

/-- A digit character decodes to a value at most 9. -/
theorem isDigit_toNat_le {c : Char} (h : c.isDigit = true) : c.toNat - 48 ≤ 9 := by
  simp [Char.isDigit, Char.le_def] at h
  obtain ⟨h1, h2⟩ := h
  have : c.toNat ≤ 57 := by simpa [Char.toNat] using h2
  omega

/-- The decoded value of a digit string is bounded by its length. -/
theorem digitsVal_lt_pow (cs : List Char) (h : ∀ c ∈ cs, c.isDigit = true) :
    ∀ a : ℕ,
      cs.foldl (fun acc c => 10 * acc + (c.toNat - 48)) a <
        (a + 1) * 10 ^ cs.length := by
  induction cs with
  | nil => intro a; simp
  | cons c t ih =>
    intro a
    simp only [List.foldl_cons, List.length_cons]
    have hv : c.toNat - 48 ≤ 9 := isDigit_toNat_le (h c (List.mem_cons_self c t))
    calc t.foldl (fun acc x => 10 * acc + (x.toNat - 48)) (10 * a + (c.toNat - 48))
        < (10 * a + (c.toNat - 48) + 1) * 10 ^ t.length :=
          ih (fun x hx => h x (List.mem_cons_of_mem c hx)) _
      _ ≤ ((a + 1) * 10) * 10 ^ t.length :=
          Nat.mul_le_mul_right _ (by omega)
      _ = (a + 1) * 10 ^ (t.length + 1) := by ring

/-- A suffix matching `Q` + 7 digits is at most 9999999. -/
theorem personSuffix_le {s : String} (h : personPatternOk s = true) :
    personSuffix s ≤ 9999999 := by
  unfold personPatternOk at h
  simp only [Bool.and_eq_true, beq_iff_eq, List.all_eq_true] at h
  obtain ⟨⟨hlen, _⟩, hdig⟩ := h
  have hlen' : s.data.length = 8 := hlen
  have hdroplen : (s.data.drop 1).length = 7 := by
    rw [List.length_drop, hlen']
  have hb := digitsVal_lt_pow (s.data.drop 1) (fun c hc => hdig c hc) 0
  rw [hdroplen] at hb
  unfold personSuffix digitsVal
  omega

/-- The id `"Q" ++ natPad 7 n` matches the pattern and decodes to `n`. -/
theorem personPatternOk_padded {n : ℕ} (hn : n ≤ 9999999) :
    personPatternOk ("Q" ++ natPad 7 n) = true ∧
      personSuffix ("Q" ++ natPad 7 n) = n := by
  obtain ⟨hl, hd, hv⟩ := natPad7_spec hn
  have hdata : ("Q" ++ natPad 7 n).data = 'Q' :: (natPad 7 n).data := by
    rw [String.data_append]; rfl
  constructor
  · unfold personPatternOk
    simp only [Bool.and_eq_true, beq_iff_eq, List.all_eq_true]
    refine ⟨⟨?_, ?_⟩, ?_⟩
    · show ("Q" ++ natPad 7 n).length = 8
      rw [String.length_append]
      show 1 + (natPad 7 n).length = 8
      omega
    · show ("Q" ++ natPad 7 n).data.take 1 = ['Q']
      rw [hdata]
      rfl
    · intro c hc
      rw [hdata] at hc
      exact hd c (by simpa using hc)
  · unfold personSuffix
    rw [hdata]
    simpa using hv

/-! ## Fold-max lemmas -/

/-- The base is below the running maximum. -/
theorem foldl_max_base (l : List ℕ) : ∀ b : ℕ, b ≤ l.foldl max b := by
  induction l with
  | nil => intro b; exact le_rfl
  | cons c t ih => intro b; exact le_trans (le_max_left b c) (ih (max b c))

/-- Every element is below the running maximum. -/
theorem foldl_max_mem_le (l : List ℕ) : ∀ b : ℕ, ∀ x ∈ l, x ≤ l.foldl max b := by
  induction l with
  | nil => intro b x hx; cases hx
  | cons c t ih =>
    intro b x hx
    rcases List.mem_cons.mp hx with rfl | hx
    · exact le_trans (le_max_right b x) (foldl_max_base t (max b x))
    · exact ih (max b c) x hx

/-- The running maximum is below any common upper bound. -/
theorem foldl_max_le_of (l : List ℕ) :
    ∀ b k : ℕ, b ≤ k → (∀ x ∈ l, x ≤ k) → l.foldl max b ≤ k := by
  induction l with
  | nil => intro b k hb _; exact hb
  | cons c t ih =>
    intro b k hb h
    exact ih (max b c) k (max_le hb (h c (List.mem_cons_self c t)))
      (fun x hx => h x (List.mem_cons_of_mem c hx))

/-- The running maximum is the base or one of the elements. -/
theorem foldl_max_eq_or_mem (l : List ℕ) :
    ∀ b : ℕ, l.foldl max b = b ∨ l.foldl max b ∈ l := by
  induction l with
  | nil => intro b; exact Or.inl rfl
  | cons c t ih =>
    intro b
    rcases ih (max b c) with h | h
    · rcases max_choice b c with hm | hm
      · left; rw [List.foldl_cons, h, hm]
      · right
        rw [List.foldl_cons, h, hm]
        exact List.mem_cons_self c t
    · right; exact List.mem_cons_of_mem c h

/-! ## Except-chain helper lemmas -/

/-- A successful step passes its value to the continuation. -/
theorem except_ok_bind {ε α β : Type} {x : α} {f : α → Except ε β} :
    (Except.ok x).bind f = f x := rfl

/-- A failed step short-circuits the chain. -/
theorem except_error_bind {ε α β : Type} {e : ε} {f : α → Except ε β} :
    (Except.error e : Except ε α).bind f = Except.error e := rfl

/-- Splitting a successful chain into its head step and continuation. -/
theorem except_bind_eq_ok {ε α β : Type} {x : Except ε α} {f : α → Except ε β}
    {b : β} :
    x.bind f = Except.ok b ↔ ∃ a, x = Except.ok a ∧ f a = Except.ok b := by
  cases x with
  | error e =>
    rw [except_error_bind]
    constructor
    · intro h; cases h
    · rintro ⟨a, ha, _⟩; cases ha
  | ok a =>
    rw [except_ok_bind]
    constructor
    · intro h; exact ⟨a, rfl, h⟩
    · rintro ⟨a', ha, hf⟩; cases ha; exact hf

/-- A length constraint is satisfied when the value fits. -/
theorem fieldMaxLen_ok {v : Option String} {m : Nat} {f : String}
    (h : (v.getD "").length ≤ m) : fieldMaxLen v m f = .ok () := by
  cases v with
  | none => rfl
  | some s =>
    show (if s.length > m then Except.error (ApiError.tooLong f)
      else Except.ok ()) = Except.ok ()
    rw [if_neg]
    simp only [Option.getD_some] at h
    omega

/-- An integer range constraint on a present value, both directions. -/
theorem fieldIntRange_some {n lo hi : ℤ} {f : String} :
    fieldIntRange (some n) lo hi f =
      (if lo ≤ n ∧ n ≤ hi then .ok () else .error (.outOfRange f)) := rfl

/-- A float range constraint on a present value, both directions. -/
theorem fieldRatRange_some {q lo hi : ℚ} {f : String} :
    fieldRatRange (some q) lo hi f =
      (if lo ≤ q ∧ q ≤ hi then .ok () else .error (.outOfRange f)) := rfl

/-- An integer range constraint is satisfied when the value (defaulting to
the lower bound) lies inside. -/
theorem fieldIntRange_ok {v : Option ℤ} {lo hi : ℤ} {f : String}
    (h : lo ≤ v.getD lo ∧ v.getD lo ≤ hi) : fieldIntRange v lo hi f = .ok () := by
  cases v with
  | none => rfl
  | some n =>
    rw [fieldIntRange_some, if_pos]
    simpa using h

/-- A float range constraint is satisfied when the value (defaulting to
the lower bound) lies inside. -/
theorem fieldRatRange_ok {v : Option ℚ} {lo hi : ℚ} {f : String}
    (h : lo ≤ v.getD lo ∧ v.getD lo ≤ hi) : fieldRatRange v lo hi f = .ok () := by
  cases v with
  | none => rfl
  | some q =>
    rw [fieldRatRange_some, if_pos]
    simpa using h

/-- A missing foreign-key value is vacuously valid. -/
theorem validate_fk_none {α : Type} [BEq α] (table : List α) (col : String) :
    validate_foreign_key_exists table col (none : Option α) = .ok () := rfl

/-- A present foreign-key value fails exactly when no row carries it. -/
theorem validate_fk_some {α : Type} [BEq α] [LawfulBEq α] (table : List α)
    (col : String) (v : α) :
    validate_foreign_key_exists table col (some v) =
        .error (.referenceNotFound col) ↔ v ∉ table := by
  show (if table.contains v = true then Except.ok ()
      else Except.error (ApiError.referenceNotFound col)) =
      Except.error (ApiError.referenceNotFound col) ↔ v ∉ table
  by_cases hc : table.contains v = true
  · rw [if_pos hc]
    simp only [reduceCtorEq, false_iff]
    intro hmem
    exact hmem (List.elem_iff.mp hc)
  · rw [if_neg hc]
    simp only [true_iff]
    intro hmem
    exact hc (List.elem_iff.mpr hmem)

/-- The router's boolean normalization is the identity on values already
parsed to `Optional[bool]` by the request boundary. -/
theorem normalizeBoolField_id (b : Option Bool) : normalizeBoolField b = .ok b := by
  cases b with
  | none => rfl
  | some v => rfl

/-- Each 64-bit word renders to 16 hex characters. -/
theorem word64Hex_length (x : Nat) : (word64Hex x).length = 16 := by
  simp [word64Hex]

/-- Summing a constant 16 over a list. -/
theorem sum_map_const16 {α : Type} (l : List α) :
    (l.map (fun _ => (16 : ℕ))).sum = 16 * l.length := by
  induction l with
  | nil => rfl
  | cons x t ih =>
    simp only [List.map_cons, List.sum_cons, List.length_cons, ih]
    ring

/-- A SHA-512 hex digest is always 128 characters long. -/
theorem sha512Hex_length (msg : List Nat) : (sha512Hex msg).length = 128 := by
  show (((sha512Words msg).map word64Hex).flatten).length = 128
  rw [List.length_flatten, List.map_map]
  have hgen : ∀ l : List Nat,
      List.map (List.length ∘ word64Hex) l = l.map (fun _ => 16) := by
    intro l
    induction l with
    | nil => rfl
    | cons x t ih =>
      simp only [List.map_cons, Function.comp_apply, word64Hex_length, ih]
  have h := hgen (sha512Words msg)
  rw [h, sum_map_const16]
  have hlen : (sha512Words msg).length = 8 := by
    show ((List.range 8).map _).length = 8
    simp
  rw [hlen]

/-- Every character of a SHA-512 hex digest is a lowercase hex digit. -/
theorem sha512Hex_chars (msg : List Nat) :
    ∀ ch ∈ (sha512Hex msg).data, isLowerHexDigit ch = true := by
  intro ch hch
  have hflat : ch ∈ ((sha512Words msg).map word64Hex).flatten := hch
  obtain ⟨l, hl, hcl⟩ := List.mem_flatten.mp hflat
  obtain ⟨x, _, rfl⟩ := List.mem_map.mp hl
  obtain ⟨i, _, rfl⟩ := List.mem_map.mp hcl
  have hd : (x >>> (4 * (15 - i))) % 16 < 16 := Nat.mod_lt _ (by norm_num)
  generalize (x >>> (4 * (15 - i))) % 16 = d at hd ⊢
  interval_cases d <;> decide

/-- The create-path validations succeed on semantically valid input. -/
theorem crashCreateChecks_ok (now : DateTime) (data : CreateCrash)
    (hlat : -90 ≤ data.latitude ∧ data.latitude ≤ 90)
    (hlon : -180 ≤ data.longitude ∧ data.longitude ≤ 180)
    (hdate : dtLtB now data.incident_date = false)
    (hname : (data.street_name.getD "").length ≤ 255)
    (hno : 0 ≤ data.street_no.getD 0) :
    crashCreateChecks now data = .ok () := by
  have h1 : validate_coordinates data.latitude data.longitude = .ok () := by
    unfold validate_coordinates
    rw [if_neg (not_not_intro hlat), if_neg (not_not_intro hlon)]
  have h2 : validate_date_not_future now data.incident_date "incident_date" =
      .ok () := by
    unfold validate_date_not_future
    rw [hdate]
    rfl
  have h3 : ((match data.street_name with
      | some s =>
        if s ≠ "" then validate_string_length s 255 "street_name" else .ok ()
      | none => .ok ()) : Except ApiError Unit) = .ok () := by
    cases hsn : data.street_name with
    | none => rfl
    | some s =>
      rw [hsn] at hname
      show (if s ≠ "" then validate_string_length s 255 "street_name"
        else .ok ()) = .ok ()
      by_cases hne : s ≠ ""
      · rw [if_pos hne]
        unfold validate_string_length
        rw [if_neg]
        simp only [Option.getD_some] at hname
        rintro ⟨-, hgt⟩
        omega
      · rw [if_neg hne]
  have h4 : ((match data.street_no with
      | some n => validate_non_negative n "street_no"
      | none => .ok ()) : Except ApiError Unit) = .ok () := by
    cases hsn : data.street_no with
    | none => rfl
    | some n =>
      rw [hsn] at hno
      show validate_non_negative n "street_no" = .ok ()
      unfold validate_non_negative
      rw [if_neg]
      simp only [Option.getD_some] at hno
      omega
  unfold crashCreateChecks
  rw [h1, except_ok_bind, h2, except_ok_bind, h3, except_ok_bind, h4]

/-! ## Claim theorems -/

/-- Claim C7: Coordinate truncation is idempotent — applying
`truncate_coordinates` to its own output returns the same pair — and each
truncated value equals the input truncated toward zero at 6 decimal
places: the floor of the value scaled by `10 ^ 6` for nonnegative inputs
and the ceiling (not the floor, and never a rounding) for negative
inputs, scaled back down. -/
theorem C7_truncate_coordinates_idempotent_toward_zero (lat lon : ℚ) :
    truncate_coordinates (truncate_coordinates lat lon).1
        (truncate_coordinates lat lon).2 = truncate_coordinates lat lon ∧
    (truncate_coordinates lat lon).1 =
      ((if 0 ≤ lat then ⌊lat * 1000000⌋ else ⌈lat * 1000000⌉ : ℤ) : ℚ) / 1000000 ∧
    (truncate_coordinates lat lon).2 =
      ((if 0 ≤ lon then ⌊lon * 1000000⌋ else ⌈lon * 1000000⌉ : ℤ) : ℚ) / 1000000 := by
  refine ⟨?_, ?_, ?_⟩
  · show (truncQ6 (truncQ6 lat), truncQ6 (truncQ6 lon)) = (truncQ6 lat, truncQ6 lon)
    rw [truncQ6_idem, truncQ6_idem]
  · show truncQ6 lat = _
    rw [truncQ6, ratTrunc_million_eq]
  · show truncQ6 lon = _
    rw [truncQ6, ratTrunc_million_eq]

/-- Claim C3: Person-id generation fails with the distinct
`exhaustedIdentifierSpace` tag exactly when some conforming id already
carries the maximal suffix 9999999; with no conforming ids it returns
`Q0000001`; and a successful result is itself of the form `Q` + 7 digits,
strictly above every existing conforming suffix, and is the successor of
an existing suffix (or is 1). -/
theorem C3_generate_person_id_spec (ids : List String) :
    (generate_person_id ids = .error .exhaustedIdentifierSpace ↔
      ∃ s ∈ ids, personPatternOk s = true ∧ personSuffix s = 9999999) ∧
    ((∀ s ∈ ids, personPatternOk s = false) →
      generate_person_id ids = .ok "Q0000001") ∧
    (∀ r, generate_person_id ids = .ok r →
      personPatternOk r = true ∧
      (∀ s ∈ ids, personPatternOk s = true → personSuffix s < personSuffix r) ∧
      (personSuffix r = 1 ∨
        ∃ s ∈ ids, personPatternOk s = true ∧
          personSuffix s + 1 = personSuffix r)) := by
  set M := ((ids.filter personPatternOk).map personSuffix).foldl max 0 with hM
  have hMle : M ≤ 9999999 :=
    foldl_max_le_of _ 0 _ (Nat.zero_le _) (fun x hx => by
      obtain ⟨s, hs, rfl⟩ := List.mem_map.mp hx
      exact personSuffix_le (List.mem_filter.mp hs).2)
  have gen_eq : generate_person_id ids =
      if M + 1 > 9999999 then .error .exhaustedIdentifierSpace
      else .ok ("Q" ++ natPad 7 (M + 1)) := rfl
  have mem_of_suffix : ∀ s ∈ ids, personPatternOk s = true →
      personSuffix s ≤ M := by
    intro s hs hok
    exact foldl_max_mem_le _ 0 _
      (List.mem_map.mpr ⟨s, List.mem_filter.mpr ⟨hs, hok⟩, rfl⟩)
  refine ⟨⟨?_, ?_⟩, ?_, ?_⟩
  · intro h
    rw [gen_eq] at h
    by_cases hc : M + 1 > 9999999
    · have hMeq : M = 9999999 := by omega
      have hne : M ≠ 0 := by omega
      rcases foldl_max_eq_or_mem ((ids.filter personPatternOk).map personSuffix) 0 with
        h0 | hmem
      · exact absurd (hM.trans h0) hne
      · obtain ⟨s, hs, hsM⟩ := List.mem_map.mp hmem
        exact ⟨s, (List.mem_filter.mp hs).1,
          (List.mem_filter.mp hs).2, by omega⟩
    · rw [if_neg hc] at h
      cases h
  · rintro ⟨s, hs, hok, hsuf⟩
    have h9 : 9999999 ≤ M := hsuf ▸ mem_of_suffix s hs hok
    rw [gen_eq, if_pos (by omega)]
  · intro h
    have hfilter : ids.filter personPatternOk = [] :=
      List.filter_eq_nil_iff.mpr (fun s hs => by rw [h s hs]; simp)
    have hM0 : M = 0 := by rw [hM, hfilter]; rfl
    rw [gen_eq, hM0]
    norm_num
    decide
  · intro r hr
    rw [gen_eq] at hr
    by_cases hc : M + 1 > 9999999
    · rw [if_pos hc] at hr; cases hr
    · rw [if_neg hc] at hr
      have hr' : "Q" ++ natPad 7 (M + 1) = r := by
        injection hr
      subst hr'
      have hb : M + 1 ≤ 9999999 := by omega
      obtain ⟨hok, hsuf⟩ := personPatternOk_padded hb
      refine ⟨hok, ?_, ?_⟩
      · intro s hs hps
        have := mem_of_suffix s hs hps
        omega
      · rcases foldl_max_eq_or_mem
          ((ids.filter personPatternOk).map personSuffix) 0 with h0 | hmem
        · left
          rw [hsuf]
          omega
        · right
          obtain ⟨s, hs, hsM⟩ := List.mem_map.mp hmem
          exact ⟨s, (List.mem_filter.mp hs).1, (List.mem_filter.mp hs).2,
            by rw [hsuf, hsM]⟩

/-- Witness for C3 at a concrete store. -/
theorem C3_generate_person_id_spec_witness :
    generate_person_id ["Q0000003", "XYZ"] = .ok "Q0000004" ∧
      personPatternOk "Q0000004" = true :=
  ⟨by decide,
   ((C3_generate_person_id_spec ["Q0000003", "XYZ"]).2.2 "Q0000004"
      (by decide)).1⟩

/-- Claim C10: Person-id generation depends only on the rows whose id
matches `Q` + 7 digits: stores with the same conforming rows generate the
same id, prepending a non-conforming row changes nothing, and with no
conforming rows the result is `Q0000001`. -/
theorem C10_generate_person_id_ignores_nonconforming :
    (∀ ids1 ids2 : List String,
      ids1.filter personPatternOk = ids2.filter personPatternOk →
      generate_person_id ids1 = generate_person_id ids2) ∧
    (∀ (ids : List String) (s : String), personPatternOk s = false →
      generate_person_id (s :: ids) = generate_person_id ids) ∧
    (∀ ids : List String, (∀ s ∈ ids, personPatternOk s = false) →
      generate_person_id ids = .ok "Q0000001") := by
  have key : ∀ ids1 ids2 : List String,
      ids1.filter personPatternOk = ids2.filter personPatternOk →
      generate_person_id ids1 = generate_person_id ids2 := by
    intro ids1 ids2 h
    unfold generate_person_id
    rw [h]
  refine ⟨key, ?_, ?_⟩
  · intro ids s hs
    exact key _ _ (List.filter_cons_of_neg (by simp [hs]))
  · intro ids h
    have hfilter : ids.filter personPatternOk = [] :=
      List.filter_eq_nil_iff.mpr (fun s hs => by rw [h s hs]; simp)
    rw [key ids [] (by rw [hfilter]; rfl)]
    decide

/-- Witness for C10 at a concrete store. -/
theorem C10_generate_person_id_ignores_nonconforming_witness :
    generate_person_id ["hello", "Q0000009"] = generate_person_id ["Q0000009"] :=
  C10_generate_person_id_ignores_nonconforming.2.1 ["Q0000009"] "hello" (by decide)

/-- Claim C9: The foreign-key existence check accepts `None` vacuously and
fails with `referenceNotFound` — mapped to HTTP 404 — exactly when the
value is present and no row of the target table carries it; in
particular, creating DriverInfo against a person table without the
referenced `person_id` fails with `referenceNotFound` and writes
nothing. -/
theorem C9_foreign_key_existence_check :
    (∀ (α : Type) [BEq α] (table : List α) (col : String),
      validate_foreign_key_exists table col (none : Option α) = .ok ()) ∧
    (∀ (α : Type) [BEq α] [LawfulBEq α] (table : List α) (col : String) (v : α),
      validate_foreign_key_exists table col (some v) =
          .error (.referenceNotFound col) ↔ v ∉ table) ∧
    (∀ col : String, (ApiError.referenceNotFound col).statusCode = 404) ∧
    (∀ (peopleIds : List String) (store : List DriverInfo)
        (data : CreateDriverInfo),
      data.person_id ∉ peopleIds →
      (data.driver_action.getD "").length ≤ 50 →
      (data.driver_vision.getD "").length ≤ 50 →
      (data.physical_condition.getD "").length ≤ 50 →
      0 ≤ data.bac_result_value.getD 0 ∧ data.bac_result_value.getD 0 ≤ 1 →
      (data.drivers_license_class.getD "").length ≤ 10 →
      driverCreate peopleIds store data =
        (.error (.referenceNotFound "person_id"), store)) := by
  refine ⟨fun α _ table col => validate_fk_none table col,
    fun α _ _ table col v => validate_fk_some table col v,
    fun col => rfl, ?_⟩
  intro peopleIds store data hmem h1 h2 h3 hb h4
  have efk : validate_foreign_key_exists peopleIds "person_id"
      (some data.person_id) = .error (.referenceNotFound "person_id") :=
    (validate_fk_some peopleIds "person_id" data.person_id).mpr hmem
  have hres : driverCreateResult peopleIds store data =
      .error (.referenceNotFound "person_id") := by
    unfold driverCreateResult driverSchemaCheck
    simp only [fieldMaxLen_ok h1, fieldMaxLen_ok h2, fieldMaxLen_ok h3,
      fieldRatRange_ok hb, fieldMaxLen_ok h4, except_ok_bind,
      except_error_bind, efk]
  unfold driverCreate
  rw [hres]

/-- Witness for C9 at a concrete store. -/
theorem C9_foreign_key_existence_check_witness :
    driverCreate [] [] { person_id := "Q0000001" } =
      (.error (.referenceNotFound "person_id"), []) :=
  C9_foreign_key_existence_check.2.2.2 [] [] { person_id := "Q0000001" }
    (by decide) (by decide) (by decide) (by decide) (by decide) (by decide)

/-- Claim C4: Ranged numeric fields are validated against inclusive
`[min, max]` domains, and a violation fails with the `outOfRange` tag
before any write: the schema range checks accept exactly the closed
interval, a lane count outside `[0, 25]` makes the circumstances create
fail with `outOfRange` leaving the table unchanged, and a BAC value
outside `[0.0, 1.0]` does the same for the driver-info create. -/
theorem C4_ranged_fields_inclusive_out_of_range :
    (∀ (n lo hi : ℤ) (f : String),
      fieldIntRange (some n) lo hi f = .ok () ↔ lo ≤ n ∧ n ≤ hi) ∧
    (∀ (q lo hi : ℚ) (f : String),
      fieldRatRange (some q) lo hi f = .ok () ↔ lo ≤ q ∧ q ≤ hi) ∧
    (∀ (crashIds : List String) (store : List CrashCircumstances)
        (data : CreateCrashCircumstances) (n : ℤ),
      data.lane_cnt = some n → ¬(0 ≤ n ∧ n ≤ 25) →
      (data.traffic_control_device.getD "").length ≤ 100 →
      (data.device_condition.getD "").length ≤ 100 →
      (data.weather_condition.getD "").length ≤ 100 →
      (data.lighting_condition.getD "").length ≤ 100 →
      circCreate crashIds store data =
        (.error (.outOfRange "lane_cnt"), store)) ∧
    (∀ (peopleIds : List String) (store : List DriverInfo)
        (data : CreateDriverInfo) (q : ℚ),
      data.bac_result_value = some q → ¬(0 ≤ q ∧ q ≤ 1) →
      (data.driver_action.getD "").length ≤ 50 →
      (data.driver_vision.getD "").length ≤ 50 →
      (data.physical_condition.getD "").length ≤ 50 →
      driverCreate peopleIds store data =
        (.error (.outOfRange "bac_result_value"), store)) := by
  refine ⟨?_, ?_, ?_, ?_⟩
  · intro n lo hi f
    rw [fieldIntRange_some]
    by_cases h : lo ≤ n ∧ n ≤ hi
    · rw [if_pos h]; simpa using h
    · rw [if_neg h]; simp [h]
  · intro q lo hi f
    rw [fieldRatRange_some]
    by_cases h : lo ≤ q ∧ q ≤ hi
    · rw [if_pos h]; simpa using h
    · rw [if_neg h]; simp [h]
  · intro crashIds store data n hn hout h1 h2 h3 h4
    have elane : fieldIntRange data.lane_cnt 0 25 "lane_cnt" =
        .error (.outOfRange "lane_cnt") := by
      rw [hn, fieldIntRange_some, if_neg hout]
    have hres : circCreateResult crashIds store data =
        .error (.outOfRange "lane_cnt") := by
      unfold circCreateResult circSchemaCheck
      simp only [fieldMaxLen_ok h1, fieldMaxLen_ok h2, fieldMaxLen_ok h3,
        fieldMaxLen_ok h4, elane, except_ok_bind, except_error_bind]
    unfold circCreate
    rw [hres]
  · intro peopleIds store data q hq hout h1 h2 h3
    have ebac : fieldRatRange data.bac_result_value 0 1 "bac_result_value" =
        .error (.outOfRange "bac_result_value") := by
      rw [hq, fieldRatRange_some, if_neg hout]
    have hres : driverCreateResult peopleIds store data =
        .error (.outOfRange "bac_result_value") := by
      unfold driverCreateResult driverSchemaCheck
      simp only [fieldMaxLen_ok h1, fieldMaxLen_ok h2, fieldMaxLen_ok h3,
        ebac, except_ok_bind, except_error_bind]
    unfold driverCreate
    rw [hres]

/-- Witness for C4: lane count 26 and BAC 1.5 are each rejected with
`outOfRange` against empty stores. -/
theorem C4_ranged_fields_inclusive_out_of_range_witness :
    circCreate [] [] { crash_record_id := "c", lane_cnt := some 26 } =
      (.error (.outOfRange "lane_cnt"), []) ∧
    driverCreate [] [] { person_id := "p", bac_result_value := some (3/2) } =
      (.error (.outOfRange "bac_result_value"), []) :=
  ⟨C4_ranged_fields_inclusive_out_of_range.2.2.1 [] []
      { crash_record_id := "c", lane_cnt := some 26 } 26 rfl (by decide)
      (by decide) (by decide) (by decide) (by decide),
   C4_ranged_fields_inclusive_out_of_range.2.2.2 [] []
      { person_id := "p", bac_result_value := some (3/2) } (3/2) rfl
      (by norm_num) (by decide) (by decide) (by decide)⟩

/-- Claim C5: For every accepted boolean input representation the create
path and the update path of vehicle violations store the same normalized
value: the stored-value pipelines of the two paths agree on every raw
representation, a successful create stores the boundary-parsed booleans
unchanged (the router's normalization pass is the identity there), and a
successful update stores every provided boolean unchanged. -/
theorem C5_boolean_normalization_create_update_agree :
    (∀ rep : Option PyVal, vvCreateStoredBool rep = vvUpdateStoredBool rep) ∧
    (∀ (vehicleIds : List ℤ) (store : List VehicleViolation)
        (data : CreateVehicleViolation) (row : VehicleViolation)
        (store' : List VehicleViolation),
      vvCreate vehicleIds store data = (.ok row, store') →
      row.cmrc_veh_i = data.cmrc_veh_i ∧
      row.exceed_speed_limit_i = data.exceed_speed_limit_i ∧
      row.hazmat_present_i = data.hazmat_present_i) ∧
    (∀ (store : List VehicleViolation) (vid : ℤ)
        (data : UpdateVehicleViolation) (row : VehicleViolation)
        (store' : List VehicleViolation),
      vvUpdate store vid data = (.ok row, store') →
      (∀ b, data.cmrc_veh_i = some b → row.cmrc_veh_i = some b) ∧
      (∀ b, data.exceed_speed_limit_i = some b →
        row.exceed_speed_limit_i = some b) ∧
      (∀ b, data.hazmat_present_i = some b → row.hazmat_present_i = some b)) := by
  refine ⟨?_, ?_, ?_⟩
  · intro rep
    unfold vvCreateStoredBool vvUpdateStoredBool
    cases hp : parseOptionalBool rep with
    | error e => rfl
    | ok b => exact normalizeBoolField_id b
  · intro vehicleIds store data row store' h
    unfold vvCreate at h
    cases hres : vvCreateResult vehicleIds store data with
    | error e => rw [hres] at h; simp at h
    | ok r =>
      rw [hres] at h
      simp only [Prod.mk.injEq, Except.ok.injEq] at h
      obtain ⟨hrow, _⟩ := h
      subst hrow
      unfold vvCreateResult at hres
      rw [except_bind_eq_ok] at hres
      obtain ⟨_, _, hres⟩ := hres
      rw [except_bind_eq_ok] at hres
      obtain ⟨_, _, hres⟩ := hres
      rw [except_bind_eq_ok] at hres
      obtain ⟨_, _, hres⟩ := hres
      rw [except_bind_eq_ok] at hres
      obtain ⟨_, _, hres⟩ := hres
      rw [except_bind_eq_ok] at hres
      obtain ⟨cm, hcm, hres⟩ := hres
      rw [except_bind_eq_ok] at hres
      obtain ⟨ex, hex, hres⟩ := hres
      rw [except_bind_eq_ok] at hres
      obtain ⟨hz, hhz, hres⟩ := hres
      rw [normalizeBoolField_id] at hcm hex hhz
      cases hcm
      cases hex
      cases hhz
      cases hres
      exact ⟨rfl, rfl, rfl⟩
  · intro store vid data row store' h
    unfold vvUpdate at h
    cases hfind : store.find? (fun r => r.vehicle_id == vid) with
    | none => rw [hfind] at h; simp at h
    | some row0 =>
      rw [hfind] at h
      cases hlen : (match data.vehicle_defect with
        | some s =>
          if s ≠ "" then validate_string_length s 100 "vehicle_defect"
          else Except.ok ()
        | none => Except.ok ()) with
      | error e => rw [hlen] at h; simp at h
      | ok u =>
        rw [hlen] at h
        simp only [Prod.mk.injEq, Except.ok.injEq] at h
        obtain ⟨hrow, _⟩ := h
        subst hrow
        refine ⟨?_, ?_, ?_⟩ <;> intro b hb <;>
          simp [applyVvUpdate, hb, Option.orElse]

/-- Witness for C5 at a concrete successful create. -/
theorem C5_boolean_normalization_create_update_agree_witness :
    (⟨1, some true, some false, none, none⟩ : VehicleViolation).cmrc_veh_i =
      ({ vehicle_id := 1, cmrc_veh_i := some true,
         exceed_speed_limit_i := some false } :
        CreateVehicleViolation).cmrc_veh_i :=
  (C5_boolean_normalization_create_update_agree.2.1 [1] []
    { vehicle_id := 1, cmrc_veh_i := some true,
      exceed_speed_limit_i := some false }
    ⟨1, some true, some false, none, none⟩
    [⟨1, some true, some false, none, none⟩] rfl).1

/-- Claim C8: A crash update whose payload fails validation returns the
failure and leaves the store untouched: every failing update returns the
store unchanged, and in particular a payload with latitude 95 — outside
the inclusive [−90, 90] domain — fails with `outOfRange` on an existing
row, with the stored row keeping all its prior values. -/
theorem C8_crash_update_validation_failure_no_write :
    (∀ (now : DateTime) (store : CrashStore) (id : String)
        (data : UpdateCrash) (e : ApiError),
      (crashesUpdate now store id data).1 = .error e →
      (crashesUpdate now store id data).2 = store) ∧
    (∀ (now : DateTime) (store : CrashStore) (id : String)
        (data : UpdateCrash) (crash : Crash),
      findCrash store id = some crash → data.latitude = some 95 →
      crashesUpdate now store id data =
        (.error (.outOfRange "latitude"), store)) := by
  constructor
  · intro now store id data e h
    unfold crashesUpdate at h ⊢
    split
    · rfl
    · split
      · rfl
      · rename_i ox cr hfind sc pay hok
        simp only [hfind, hok] at h
        simp at h
  · intro now store id data crash hf hlat
    have hchecks : crashUpdateChecks now crash data =
        .error (.outOfRange "latitude") := by
      unfold crashUpdateChecks
      rw [hlat]
      simp only [Option.isSome_some, Bool.true_or, if_true, Option.getD_some]
      have hv : validate_coordinates 95 (data.longitude.getD crash.longitude) =
          .error (.outOfRange "latitude") := by
        unfold validate_coordinates
        rw [if_pos]
        norm_num
      rw [hv, except_error_bind]
    unfold crashesUpdate
    rw [hf]
    simp only [hchecks]

/-- Witness for C8: updating an existing row with latitude 95 fails with
`outOfRange` and leaves the single-row store unchanged. -/
theorem C8_crash_update_validation_failure_no_write_witness :
    crashesUpdate now1 [rowK] "k" { latitude := some 95 } =
      (.error (.outOfRange "latitude"), [rowK]) :=
  C8_crash_update_validation_failure_no_write.2 now1 [rowK] "k"
    { latitude := some 95 } rowK rfl rfl

/-- Claim C6: When a Crash row carrying the content-hash id generated for
the given attributes already exists, a create with those attributes fails
with `alreadyExists` — mapped to HTTP 409 — and the store (hence the
existing row) is returned unmodified. -/
theorem C6_duplicate_crash_create_conflict
    (now : DateTime) (store : CrashStore) (data : CreateCrash)
    (hlat : -90 ≤ data.latitude ∧ data.latitude ≤ 90)
    (hlon : -180 ≤ data.longitude ∧ data.longitude ≤ 180)
    (hdate : dtLtB now data.incident_date = false)
    (hname : (data.street_name.getD "").length ≤ 255)
    (hno : 0 ≤ data.street_no.getD 0)
    (hdup : ∃ c ∈ store, c.crash_record_id =
      generate_crash_record_id data.incident_date (truncQ6 data.latitude)
        (truncQ6 data.longitude) (data.street_no.getD 0)
        (data.street_name.getD "")) :
    crashesCreate now store data =
      (.error (.alreadyExists (generate_crash_record_id data.incident_date
        (truncQ6 data.latitude) (truncQ6 data.longitude)
        (data.street_no.getD 0) (data.street_name.getD ""))), store) ∧
    (ApiError.alreadyExists (generate_crash_record_id data.incident_date
        (truncQ6 data.latitude) (truncQ6 data.longitude)
        (data.street_no.getD 0)
        (data.street_name.getD ""))).statusCode = 409 := by
  have hchecks := crashCreateChecks_ok now data hlat hlon hdate hname hno
  obtain ⟨c, hcmem, hcid⟩ := hdup
  have hbeq : (fun r : Crash => r.crash_record_id ==
      generate_crash_record_id data.incident_date (truncQ6 data.latitude)
        (truncQ6 data.longitude) (data.street_no.getD 0)
        (data.street_name.getD "")) c = true := by
    show (c.crash_record_id == _) = true
    rw [hcid]
    exact beq_self_eq_true _
  have hfindsome : (store.find? (fun r : Crash => r.crash_record_id ==
      generate_crash_record_id data.incident_date (truncQ6 data.latitude)
        (truncQ6 data.longitude) (data.street_no.getD 0)
        (data.street_name.getD ""))).isSome :=
    List.find?_isSome.mpr ⟨c, hcmem, hbeq⟩
  obtain ⟨c', hc'⟩ := Option.isSome_iff_exists.mp hfindsome
  refine ⟨?_, rfl⟩
  unfold crashesCreate
  rw [hchecks]
  simp only [truncate_coordinates, findCrash, hc']

/-- Witness for C6: re-creating `data1` against the store already holding
its row is a 409 conflict that leaves the store as it was. -/
theorem C6_duplicate_crash_create_conflict_witness :
    crashesCreate now1 [firstRow] data1 =
      (.error (.alreadyExists dupId), [firstRow]) :=
  (C6_duplicate_crash_create_conflict now1 [firstRow] data1 (by decide)
    (by decide) (by decide) (by decide) (by decide)
    ⟨firstRow, List.mem_singleton.mpr rfl, rfl⟩).1

/-- Claim C1: For every crash create with valid inputs, the row is inserted
and its generated `crash_record_id` is the SHA-512 hex digest (128
lowercase hex characters, by construction of `sha512Hex`) of the UTF-8
bytes of the concatenation, in order, of: the incident date as
`YYYY-MM-DD HH:MM:SS`, the two coordinates each truncated toward zero at
6 decimals and rendered with exactly 6 fractional digits, the street
number as decimal digits (0 when missing), and the street name as given
(empty when missing). -/
theorem C1_crash_create_id_is_content_hash
    (now : DateTime) (store : CrashStore) (data : CreateCrash)
    (hlat : -90 ≤ data.latitude ∧ data.latitude ≤ 90)
    (hlon : -180 ≤ data.longitude ∧ data.longitude ≤ 180)
    (hdate : dtLtB now data.incident_date = false)
    (hname : (data.street_name.getD "").length ≤ 255)
    (hno : 0 ≤ data.street_no.getD 0)
    (hnodup : ∀ c ∈ store, c.crash_record_id ≠
      generate_crash_record_id data.incident_date (truncQ6 data.latitude)
        (truncQ6 data.longitude) (data.street_no.getD 0)
        (data.street_name.getD "")) :
    ∃ c : Crash, crashesCreate now store data = (.ok c, store ++ [c]) ∧
      c.crash_record_id =
        sha512Hex (utf8Encode (fmtDateTime data.incident_date ++
          specFixed6 data.latitude ++ specFixed6 data.longitude ++
          intDecimal (data.street_no.getD 0) ++ data.street_name.getD "")) ∧
      c.crash_record_id.length = 128 ∧
      ∀ ch ∈ c.crash_record_id.data, isLowerHexDigit ch = true := by
  have hchecks := crashCreateChecks_ok now data hlat hlon hdate hname hno
  have hfind : store.find? (fun r : Crash => r.crash_record_id ==
      generate_crash_record_id data.incident_date (truncQ6 data.latitude)
        (truncQ6 data.longitude) (data.street_no.getD 0)
        (data.street_name.getD "")) = none := by
    rw [List.find?_eq_none]
    intro c hc
    show ¬(c.crash_record_id == _) = true
    rw [beq_iff_eq]
    exact hnodup c hc
  refine ⟨⟨generate_crash_record_id data.incident_date (truncQ6 data.latitude)
      (truncQ6 data.longitude) (data.street_no.getD 0)
      (data.street_name.getD ""), data.incident_date, truncQ6 data.latitude,
      truncQ6 data.longitude, data.street_no, data.street_name⟩, ?_, ?_, ?_, ?_⟩
  · unfold crashesCreate
    rw [hchecks]
    simp only [truncate_coordinates, findCrash, hfind]
  · show sha512Hex (utf8Encode (fmtDateTime data.incident_date ++
      fmtFixed6 (truncQ6 data.latitude) ++ fmtFixed6 (truncQ6 data.longitude) ++
      intDecimal (data.street_no.getD 0) ++ data.street_name.getD "")) = _
    rw [fmtFixed6_truncQ6, fmtFixed6_truncQ6]
  · exact sha512Hex_length _
  · exact sha512Hex_chars _

/-- Witness for C1 at the sample payload against the empty store. -/
theorem C1_crash_create_id_is_content_hash_witness :
    ∃ c : Crash, crashesCreate now1 [] data1 = (.ok c, [] ++ [c]) ∧
      c.crash_record_id =
        sha512Hex (utf8Encode (fmtDateTime data1.incident_date ++
          specFixed6 data1.latitude ++ specFixed6 data1.longitude ++
          intDecimal (data1.street_no.getD 0) ++
          data1.street_name.getD "")) ∧
      c.crash_record_id.length = 128 ∧
      ∀ ch ∈ c.crash_record_id.data, isLowerHexDigit ch = true :=
  C1_crash_create_id_is_content_hash now1 [] data1 (by decide) (by decide)
    (by decide) (by decide) (by decide)
    (fun c hc => absurd hc (List.not_mem_nil c))

/-- Normal form of the create operation, with the lets expanded. -/
theorem crashesCreate_eq (now : DateTime) (store : CrashStore)
    (data : CreateCrash) :
    crashesCreate now store data =
      match crashCreateChecks now data with
      | .error e => (.error e, store)
      | .ok _ =>
        match findCrash store (generate_crash_record_id data.incident_date
            (truncQ6 data.latitude) (truncQ6 data.longitude)
            (data.street_no.getD 0) (data.street_name.getD "")) with
        | some _ =>
          (.error (.alreadyExists (generate_crash_record_id data.incident_date
            (truncQ6 data.latitude) (truncQ6 data.longitude)
            (data.street_no.getD 0) (data.street_name.getD ""))), store)
        | none =>
          (.ok ⟨generate_crash_record_id data.incident_date
              (truncQ6 data.latitude) (truncQ6 data.longitude)
              (data.street_no.getD 0) (data.street_name.getD ""),
            data.incident_date, truncQ6 data.latitude, truncQ6 data.longitude,
            data.street_no, data.street_name⟩,
           store ++ [⟨generate_crash_record_id data.incident_date
              (truncQ6 data.latitude) (truncQ6 data.longitude)
              (data.street_no.getD 0) (data.street_name.getD ""),
            data.incident_date, truncQ6 data.latitude, truncQ6 data.longitude,
            data.street_no, data.street_name⟩]) := rfl

/-- Claim C2, amended: Every store state reachable by creates and deletes
satisfies the content-hash invariant — each stored row's primary key is
the hash recomputed from its stored attributes — and the update
operation never reassigns the primary key: a successful update returns a
row whose key is still the addressed id, even though update may modify
the hashed attributes without re-deriving the key. -/
theorem C2_amended_hash_invariant :
    (∀ s : CrashStore, ReachableCD s → hashInvariant s) ∧
    (∀ (now : DateTime) (store : CrashStore) (id : String)
        (data : UpdateCrash) (c : Crash) (store' : CrashStore),
      crashesUpdate now store id data = (.ok c, store') →
      c.crash_record_id = id) := by
  constructor
  · intro s hs
    induction hs with
    | empty => intro c hc; cases hc
    | create now data hs ih =>
      rw [crashesCreate_eq]
      split
      · exact ih
      · split
        · exact ih
        · intro c hc
          rcases List.mem_append.mp hc with h | h
          · exact ih c h
          · rcases List.mem_singleton.mp h with rfl
            rfl
    | delete id hs ih =>
      unfold crashesDelete
      split
      · exact ih
      · intro c hc
        exact ih c (List.mem_of_mem_filter hc)
  · intro now store id data c store' h
    unfold crashesUpdate at h
    split at h
    · simp at h
    · rename_i crash heq
      split at h
      · simp at h
      · simp only [Prod.mk.injEq, Except.ok.injEq] at h
        obtain ⟨hc, _⟩ := h
        subst hc
        show crash.crash_record_id = id
        have heq' : store.find? (fun r : Crash => r.crash_record_id == id) =
            some crash := heq
        have hp : (crash.crash_record_id == id) = true :=
          @List.find?_some Crash (fun r : Crash => r.crash_record_id == id)
            crash store heq'
        exact beq_iff_eq.mp hp

/-- Witness for the amended C2: the empty store satisfies the invariant,
and a successful update on a one-row store keeps the addressed key. -/
theorem C2_amended_hash_invariant_witness :
    hashInvariant ([] : CrashStore) ∧ rowK.crash_record_id = "k" :=
  ⟨C2_amended_hash_invariant.1 [] ReachableCD.empty,
   C2_amended_hash_invariant.2 now1 [rowK] "k" {} (applyCrashUpdate rowK {})
     ([rowK].map fun c : Crash =>
       if c.crash_record_id == "k" then applyCrashUpdate rowK {} else c) rfl⟩

set_option maxRecDepth 8000 in
/-- Counterexample to C2 as stated: the store obtained by creating the
sample crash and then updating its latitude from 10 to 30 is reachable,
yet its row's primary key — computed from the creation-time attributes —
no longer equals the hash recomputed from the stored attributes, because
the update never re-derives the key. -/
theorem C2_counterexample_reachable_state_violates_invariant :
    Reachable exampleStore2 ∧ ¬ hashInvariant exampleStore2 := by
  constructor
  · exact Reachable.update now1 dupId latUpdate30
      (Reachable.create now1 data1 Reachable.empty)
  · decide!

end CrashAPI
